import Mathlib

/-!
Verification development for the nettrace (EventPipe) streaming decoder and
CoreCLR event normalizer of the `usamply` sources.

The definitions below are shallow embeddings of the Rust sources:

  * `coreclr-tracing/src/helpers.rs`          (varint codec)
  * `coreclr-tracing/src/nettrace/mod.rs`     (wire structs)
  * `coreclr-tracing/src/nettrace/parser.rs`  (object stream, blob iterator)
  * `coreclr-tracing/src/coreclr/enums.rs`
  * `coreclr-tracing/src/coreclr/events.rs`
  * `coreclr-tracing/src/coreclr/eventpipe.rs`
  * `coreclr-tracing/src/coreclr/etw.rs`

Bytes are `Nat` (each `< 256` in a real stream), machine integers are `Nat`
with explicit `% 2 ^ w` where overflow matters, and fallible reads return
`Option` (`none` models the propagated I/O error).  A `.expect(..)` or
`.unwrap()` in the source is modelled by the `POutcome.panicked` outcome.
-/

namespace Usamply

/-- Outcome of a Rust computation that may `panic` via `unwrap`/`expect`:
either a normal value or an aborted process. -/
inductive POutcome (α : Type) where
  | ok : α → POutcome α
  | panicked : POutcome α
deriving DecidableEq, Repr

/-- Read one byte (`reader.read_le::<u8>()`); `none` models the propagated
I/O error at end of input. -/
def readU8 : List Nat → Option (Nat × List Nat)
  | [] => none
  | b :: rest => some (b, rest)

/-- Read a `width`-byte little-endian unsigned integer. -/
def readLE : Nat → List Nat → Option (Nat × List Nat)
  | 0, bs => some (0, bs)
  | _ + 1, [] => none
  | w + 1, b :: rest => (readLE w rest).map (fun vr => (b + 256 * vr.1, vr.2))

/-- Read exactly `n` raw bytes. -/
def readBytes (n : Nat) (bs : List Nat) : Option (List Nat × List Nat) :=
  if n ≤ bs.length then some (bs.take n, bs.drop n) else none

/-- Loop of `parse_varint_u64` (helpers.rs): each byte contributes its low 7
bits at the current shift, terminating when the high bit is clear.  The Rust
`<<` masks the shift amount to `shift % 64` when overflow checks are off
(debug builds panic once `shift` reaches 64), and the `u64` accumulator
truncates to 64 bits; both are explicit here. -/
def varintLoop : List Nat → Nat → Nat → Option (Nat × List Nat)
  | [], _, _ => none
  | b :: rest, result, shift =>
    let result := result ||| ((b &&& 127) <<< (shift % 64)) % 2 ^ 64
    if b &&& 128 = 0 then some (result, rest) else varintLoop rest result (shift + 7)

/-- `parse_varint_u64` (helpers.rs). -/
def parse_varint_u64 (bs : List Nat) : Option (Nat × List Nat) :=
  varintLoop bs 0 0

/-- `parse_varint_u32` (helpers.rs): the u64 decode truncated (`as u32`). -/
def parse_varint_u32 (bs : List Nat) : Option (Nat × List Nat) :=
  (parse_varint_u64 bs).map (fun vr => (vr.1 % 2 ^ 32, vr.2))

/-- Reinterpret a 64-bit unsigned value as two's-complement signed
(`mem::transmute::<u64, i64>`). -/
def toInt64 (v : Nat) : Int :=
  if v < 2 ^ 63 then (v : Int) else (v : Int) - 2 ^ 64

/-- Reinterpret a 32-bit unsigned value as two's-complement signed
(`mem::transmute::<u32, i32>`). -/
def toInt32 (v : Nat) : Int :=
  if v < 2 ^ 31 then (v : Int) else (v : Int) - 2 ^ 32

/-- `parse_varint_i64` (helpers.rs): the u64 decode, bit pattern
reinterpreted. -/
def parse_varint_i64 (bs : List Nat) : Option (Int × List Nat) :=
  (parse_varint_u64 bs).map (fun vr => (toInt64 vr.1, vr.2))

/-- `parse_varint_i32` (helpers.rs): the u64 decode truncated to u32, then
reinterpreted. -/
def parse_varint_i32 (bs : List Nat) : Option (Int × List Nat) :=
  (parse_varint_u64 bs).map (fun vr => (toInt32 (vr.1 % 2 ^ 32), vr.2))

/-- `u32::wrapping_add_signed`. -/
def wrapAddSigned32 (a : Nat) (d : Int) : Nat :=
  (((a : Int) + d) % (2 ^ 32 : Int)).toNat

/-- `u64::wrapping_add_signed`. -/
def wrapAddSigned64 (a : Nat) (d : Int) : Nat :=
  (((a : Int) + d) % (2 ^ 64 : Int)).toNat

section BitHelpers

lemma and127_eq_mod (n : Nat) : n &&& 127 = n % 128 := by
  have h := Nat.and_pow_two_sub_one_eq_mod n 7
  norm_num at h
  exact h

lemma and128_eq_zero_of_lt {b : Nat} (h : b < 128) : b &&& 128 = 0 := by
  have h2 : b &&& 2 ^ 7 = (b.testBit 7).toNat * 2 ^ 7 := Nat.and_two_pow b 7
  have h3 : b.testBit 7 = false := by
    simp [Nat.testBit_to_div_mod]
    omega
  rw [h3] at h2
  simpa using h2

lemma and128_ne_zero {b : Nat} (h1 : 128 ≤ b) (h2 : b < 256) : b &&& 128 ≠ 0 := by
  have ha : b &&& 2 ^ 7 = (b.testBit 7).toNat * 2 ^ 7 := Nat.and_two_pow b 7
  have h3 : b.testBit 7 = true := by
    simp [Nat.testBit_to_div_mod]
    omega
  rw [h3] at ha
  norm_num at ha
  omega

lemma or_eq_add_of_lt {a b k : Nat} (h : a < 2 ^ k) : a ||| 2 ^ k * b = 2 ^ k * b + a := by
  rw [Nat.or_comm]
  exact (Nat.mul_add_lt_is_or h b).symm

end BitHelpers

section VarintRoundTrip

/-- Modelled from the spec: canonical LEB128 encoder, used to state the
varint and compressed-header replay properties (the repository never emits
`.nettrace`, so the encoder direction exists only in the specification). -/
def encode_varint (n : Nat) : List Nat :=
  if n < 128 then [n] else (n % 128 + 128) :: encode_varint (n / 128)
termination_by n
decreasing_by exact Nat.div_lt_self (by omega) (by omega)

lemma varintLoop_encode (n : Nat) :
    ∀ result shift rest, shift ≤ 63 → n < 2 ^ (64 - shift) → result < 2 ^ shift →
      varintLoop (encode_varint n ++ rest) result shift = some (2 ^ shift * n + result, rest) := by
  induction n using Nat.strong_induction_on with
  | _ n ih =>
    intro result shift rest hshift hn hresult
    rw [encode_varint]
    by_cases hsmall : n < 128
    · simp only [if_pos hsmall, List.cons_append, List.nil_append, varintLoop]
      have hand : n &&& 127 = n := by
        rw [and127_eq_mod]; exact Nat.mod_eq_of_lt hsmall
      have hterm : n &&& 128 = 0 := and128_eq_zero_of_lt hsmall
      have hmask : shift % 64 = shift := Nat.mod_eq_of_lt (by omega)
      have hshl : (n <<< shift) = 2 ^ shift * n := by
        rw [Nat.shiftLeft_eq]; ring
      have hlt : 2 ^ shift * n < 2 ^ 64 := by
        have h1 : 2 ^ shift * n < 2 ^ shift * 2 ^ (64 - shift) :=
          mul_lt_mul_of_pos_left hn (Nat.pos_pow_of_pos shift (by omega))
        calc 2 ^ shift * n < 2 ^ shift * 2 ^ (64 - shift) := h1
          _ = 2 ^ 64 := by rw [← pow_add]; congr 1; omega
      rw [hand, hmask, hshl, Nat.mod_eq_of_lt hlt, or_eq_add_of_lt hresult, hterm]
      simp
    · simp only [if_neg hsmall, List.cons_append, varintLoop]
      push_neg at hsmall
      have hb : n % 128 + 128 < 256 := by omega
      have hand : (n % 128 + 128) &&& 127 = n % 128 := by
        rw [and127_eq_mod]; omega
      have hterm : (n % 128 + 128) &&& 128 ≠ 0 := and128_ne_zero (by omega) hb
      have hshift7 : shift ≤ 56 := by
        by_contra hgt
        push_neg at hgt
        have h64 : 64 - shift ≤ 7 := by omega
        have : 2 ^ (64 - shift) ≤ 2 ^ 7 := Nat.pow_le_pow_right (by omega) h64
        omega
      have hmask : shift % 64 = shift := Nat.mod_eq_of_lt (by omega)
      have hshl : ((n % 128) <<< shift) = 2 ^ shift * (n % 128) := by
        rw [Nat.shiftLeft_eq]; ring
      have hcontrib : 2 ^ shift * (n % 128) < 2 ^ (shift + 7) := by
        have hlt7 : n % 128 < 2 ^ 7 := by omega
        calc 2 ^ shift * (n % 128) < 2 ^ shift * 2 ^ 7 :=
              mul_lt_mul_of_pos_left hlt7 (Nat.pos_pow_of_pos shift (by omega))
          _ = 2 ^ (shift + 7) := by rw [← pow_add]
      have hlt64 : 2 ^ shift * (n % 128) < 2 ^ 64 := by
        have : 2 ^ (shift + 7) ≤ 2 ^ 64 := Nat.pow_le_pow_right (by omega) (by omega)
        omega
      rw [hand, hmask, hshl, Nat.mod_eq_of_lt hlt64]
      simp only [if_neg hterm]
      have hresult2 : result ||| 2 ^ shift * (n % 128) = 2 ^ shift * (n % 128) + result :=
        or_eq_add_of_lt hresult
      rw [hresult2]
      have hdivlt : n / 128 < n := Nat.div_lt_self (by omega) (by omega)
      have hdivbound : n / 128 < 2 ^ (64 - (shift + 7)) := by
        have h2 : 2 ^ (64 - shift) = 128 * 2 ^ (64 - (shift + 7)) := by
          have h128 : (128 : Nat) = 2 ^ 7 := by norm_num
          rw [h128, ← pow_add]; congr 1; omega
        exact Nat.div_lt_of_lt_mul (by omega)
      have hacc : 2 ^ shift * (n % 128) + result < 2 ^ (shift + 7) := by
        have : result < 2 ^ shift := hresult
        have hstep : 2 ^ shift * (n % 128) + 2 ^ shift ≤ 2 ^ (shift + 7) := by
          have : n % 128 + 1 ≤ 2 ^ 7 := by omega
          calc 2 ^ shift * (n % 128) + 2 ^ shift = 2 ^ shift * (n % 128 + 1) := by ring
            _ ≤ 2 ^ shift * 2 ^ 7 :=
                Nat.mul_le_mul_left _ this
            _ = 2 ^ (shift + 7) := by rw [← pow_add]
        omega
      rw [ih (n / 128) hdivlt _ (shift + 7) rest (by omega) hdivbound hacc]
      congr 2
      have : 2 ^ (shift + 7) = 2 ^ shift * 2 ^ 7 := by rw [← pow_add]
      rw [this]
      have hdm : 128 * (n / 128) + n % 128 = n := by
        have := Nat.div_add_mod n 128
        omega
      have h128 : (2 : Nat) ^ 7 = 128 := by norm_num
      calc 2 ^ shift * 2 ^ 7 * (n / 128) + (2 ^ shift * (n % 128) + result)
          = 2 ^ shift * (2 ^ 7 * (n / 128) + n % 128) + result := by ring
        _ = 2 ^ shift * n + result := by rw [h128, hdm]

/-- Canonical round trip for the unsigned 64-bit varint decoder. -/
lemma parse_varint_u64_encode {n : Nat} (h : n < 2 ^ 64) (rest : List Nat) :
    parse_varint_u64 (encode_varint n ++ rest) = some (n, rest) := by
  have := varintLoop_encode n 0 0 rest (by omega) (by simpa using h) (by norm_num)
  simpa [parse_varint_u64] using this

/-- The decoder value is always a valid u64. -/
lemma varintLoop_lt {bs : List Nat} :
    ∀ {result shift v rest}, result < 2 ^ 64 → varintLoop bs result shift = some (v, rest) →
      v < 2 ^ 64 := by
  induction bs with
  | nil => intro result shift v rest _ h; simp [varintLoop] at h
  | cons b bs ih =>
    intro result shift v rest hres h
    simp only [varintLoop] at h
    have hcontrib : ((b &&& 127) <<< (shift % 64)) % 2 ^ 64 < 2 ^ 64 :=
      Nat.mod_lt _ (by norm_num)
    have hor : result ||| ((b &&& 127) <<< (shift % 64)) % 2 ^ 64 < 2 ^ 64 :=
      Nat.or_lt_two_pow hres hcontrib
    by_cases hb : b &&& 128 = 0
    · simp only [if_pos hb, Option.some.injEq, Prod.mk.injEq] at h
      omega
    · simp only [if_neg hb] at h
      exact ih hor h

lemma parse_varint_u64_lt {bs : List Nat} {v : Nat} {rest : List Nat}
    (h : parse_varint_u64 bs = some (v, rest)) : v < 2 ^ 64 :=
  varintLoop_lt (by norm_num) h

end VarintRoundTrip

/-- `EventBlobHeader` (nettrace/mod.rs): per-event header, either read
uncompressed as a fixed-width struct or assembled by the compressed-header
delta decoder.  `metadata_id` is `raw_metadata_id` without its high bit; the
high bit carries `is_sorted`. -/
structure EventBlobHeader where
  size : Nat
  raw_metadata_id : Nat
  sequence_number : Nat
  thread_id : Nat
  capture_thread_id : Nat
  processor_number : Nat
  stack_id : Nat
  timestamp : Nat
  activity_id : List Nat
  related_activity_id : List Nat
  payload_size : Nat
  metadata_id : Nat
  is_sorted : Bool
deriving DecidableEq, Repr

/-- `EventBlobHeader::default()`: all fields zero. -/
def defaultHeader : EventBlobHeader :=
  ⟨0, 0, 0, 0, 0, 0, 0, 0, List.replicate 16 0, List.replicate 16 0, 0, 0, false⟩

/-- The `is_set` helper inside `parse_compressed_header`. -/
def is_set (flags : Nat) (bit : Nat) : Bool := flags &&& (1 <<< bit) != 0

/-- `EventBlobIter::parse_compressed_header` (parser.rs): a flag byte selects
which fields are freshly read; a clear bit makes the field inherit from
`prev_header`.  The timestamp delta is always present.  The sequence-number
increment for a non-zero metadata id is applied right after the bit-1 block,
exactly as in the source.  The returned header also becomes the caller's new
`prev_header`. -/
def parse_compressed_header (bs : List Nat) (prev_header : EventBlobHeader) :
    Option (EventBlobHeader × List Nat) :=
  match readU8 bs with
  | none => none
  | some (flags, bs) =>
    match (if is_set flags 0 then parse_varint_u32 bs
           else some (prev_header.metadata_id, bs)) with
    | none => none
    | some (metadata_id, bs) =>
      match
        (if is_set flags 1 then
          match parse_varint_i32 bs with
          | none => none
          | some (d, bs) =>
            match parse_varint_u64 bs with
            | none => none
            | some (capture_thread_id, bs) =>
              match parse_varint_u32 bs with
              | none => none
              | some (processor_number, bs) =>
                some (wrapAddSigned32 prev_header.sequence_number d, capture_thread_id,
                  processor_number, bs)
        else some (prev_header.sequence_number, prev_header.capture_thread_id,
          prev_header.processor_number, bs)) with
      | none => none
      | some (seq0, capture_thread_id, processor_number, bs) =>
        let sequence_number := if metadata_id ≠ 0 then (seq0 + 1) % 2 ^ 32 else seq0
        match (if is_set flags 2 then parse_varint_u64 bs
               else some (prev_header.thread_id, bs)) with
        | none => none
        | some (thread_id, bs) =>
          match (if is_set flags 3 then parse_varint_u32 bs
                 else some (prev_header.stack_id, bs)) with
          | none => none
          | some (stack_id, bs) =>
            match parse_varint_i64 bs with
            | none => none
            | some (tsd, bs) =>
              let timestamp := wrapAddSigned64 prev_header.timestamp tsd
              match (if is_set flags 4 then readBytes 16 bs
                     else some (prev_header.activity_id, bs)) with
              | none => none
              | some (activity_id, bs) =>
                match (if is_set flags 5 then readBytes 16 bs
                       else some (prev_header.related_activity_id, bs)) with
                | none => none
                | some (related_activity_id, bs) =>
                  let is_sorted := is_set flags 6
                  match (if is_set flags 7 then parse_varint_u32 bs
                         else some (prev_header.payload_size, bs)) with
                  | none => none
                  | some (payload_size, bs) =>
                    let raw_metadata_id := (if is_sorted then 1 <<< 31 else 0) ||| metadata_id
                    some (⟨0, raw_metadata_id, sequence_number, thread_id, capture_thread_id,
                      processor_number, stack_id, timestamp, activity_id, related_activity_id,
                      payload_size, metadata_id, is_sorted⟩, bs)

/-- Specification combinator for one row of the flag-bit table: the field is
read from the stream exactly when `cond` (its flag bit) is set and inherited
(consuming nothing) otherwise. -/
def inheritOr (cond : Bool) (read : List Nat → Option (α × List Nat)) (inherited : α)
    (bs : List Nat) : Option (α × List Nat) :=
  if cond then read bs else some (inherited, bs)

/-- Restatement of the compressed-header decode following the specification's
flag-bit table: every payload-carrying field (bits 0-5 and 7) is read from
the stream exactly when its bit is set and inherited from `prev_header`
otherwise (bit 1 governs the sequence-number delta, the capture thread id
and the processor number together); the timestamp is always read as a signed
varint delta added to the previous timestamp with wrapping; `is_sorted` is
taken from flag bit 6 itself (neither read from the stream nor inherited);
and only after all fields are assembled is the sequence number incremented
by one, exactly when the decoded metadata id is non-zero. -/
def parse_compressed_header_spec (bs : List Nat) (prev_header : EventBlobHeader) :
    Option (EventBlobHeader × List Nat) :=
  (readU8 bs).bind fun fb =>
  let flags := fb.1
  (inheritOr (is_set flags 0) parse_varint_u32 prev_header.metadata_id fb.2).bind fun md =>
  (inheritOr (is_set flags 1)
      (fun bs =>
        (parse_varint_i32 bs).bind fun d =>
        (parse_varint_u64 d.2).bind fun ct =>
        (parse_varint_u32 ct.2).map fun pn =>
          ((wrapAddSigned32 prev_header.sequence_number d.1, ct.1, pn.1), pn.2))
      (prev_header.sequence_number, prev_header.capture_thread_id,
        prev_header.processor_number) md.2).bind fun sq =>
  (inheritOr (is_set flags 2) parse_varint_u64 prev_header.thread_id sq.2).bind fun th =>
  (inheritOr (is_set flags 3) parse_varint_u32 prev_header.stack_id th.2).bind fun st =>
  (parse_varint_i64 st.2).bind fun ts =>
  (inheritOr (is_set flags 4) (readBytes 16) prev_header.activity_id ts.2).bind fun ac =>
  (inheritOr (is_set flags 5) (readBytes 16) prev_header.related_activity_id ac.2).bind fun rc =>
  (inheritOr (is_set flags 7) parse_varint_u32 prev_header.payload_size rc.2).map fun ps =>
  let metadata_id := md.1
  let seqBase := sq.1.1
  let is_sorted := is_set flags 6
  let sequence_number := if metadata_id ≠ 0 then (seqBase + 1) % 2 ^ 32 else seqBase
  ({ size := 0
     raw_metadata_id := (if is_sorted then 1 <<< 31 else 0) ||| metadata_id
     sequence_number := sequence_number
     thread_id := th.1
     capture_thread_id := sq.1.2.1
     processor_number := sq.1.2.2
     stack_id := st.1
     timestamp := wrapAddSigned64 prev_header.timestamp ts.1
     activity_id := ac.1
     related_activity_id := rc.1
     payload_size := ps.1
     metadata_id := metadata_id
     is_sorted := is_sorted }, ps.2)

lemma parse_compressed_header_eq_spec (bs : List Nat) (prev_header : EventBlobHeader) :
    parse_compressed_header bs prev_header = parse_compressed_header_spec bs prev_header := by
  unfold parse_compressed_header parse_compressed_header_spec inheritOr
  cases hf : readU8 bs with
  | none => rfl
  | some fb =>
    obtain ⟨flags, bs0⟩ := fb
    dsimp only [Option.some_bind]
    cases hmd : (if is_set flags 0 then parse_varint_u32 bs0
                 else some (prev_header.metadata_id, bs0)) with
    | none => rfl
    | some md =>
      obtain ⟨metadata_id, bs1⟩ := md
      dsimp only [Option.some_bind]
      cases hsq : (if is_set flags 1 then
          (parse_varint_i32 bs1).bind fun d =>
          (parse_varint_u64 d.2).bind fun ct =>
          (parse_varint_u32 ct.2).map fun pn =>
            ((wrapAddSigned32 prev_header.sequence_number d.1, ct.1, pn.1), pn.2)
        else some ((prev_header.sequence_number, prev_header.capture_thread_id,
          prev_header.processor_number), bs1)) with
      | none =>
        dsimp only [Option.none_bind]
        by_cases h1 : is_set flags 1 = true
        · rw [if_pos h1] at hsq ⊢
          cases hd : parse_varint_i32 bs1 with
          | none => rfl
          | some d =>
            rw [hd] at hsq
            dsimp only [Option.some_bind] at hsq ⊢
            cases hct : parse_varint_u64 d.2 with
            | none => rfl
            | some ct =>
              rw [hct] at hsq
              dsimp only [Option.some_bind] at hsq ⊢
              cases hpn : parse_varint_u32 ct.2 with
              | none => rfl
              | some pn => rw [hpn] at hsq; simp at hsq
        · rw [if_neg h1] at hsq ⊢
          simp at hsq
      | some sq =>
        obtain ⟨⟨seq0, capture_thread_id, processor_number⟩, bs2⟩ := sq
        dsimp only [Option.some_bind]
        have hsrc :
            (if is_set flags 1 then
              match parse_varint_i32 bs1 with
              | none => none
              | some (d, bs) =>
                match parse_varint_u64 bs with
                | none => none
                | some (capture_thread_id, bs) =>
                  match parse_varint_u32 bs with
                  | none => none
                  | some (processor_number, bs) =>
                    some (wrapAddSigned32 prev_header.sequence_number d, capture_thread_id,
                      processor_number, bs)
            else some (prev_header.sequence_number, prev_header.capture_thread_id,
              prev_header.processor_number, bs1)) =
            some (seq0, capture_thread_id, processor_number, bs2) := by
          by_cases h1 : is_set flags 1 = true
          · rw [if_pos h1] at hsq ⊢
            cases hd : parse_varint_i32 bs1 with
            | none => rw [hd] at hsq; simp at hsq
            | some d =>
              obtain ⟨dv, bsd⟩ := d
              rw [hd] at hsq
              dsimp only [Option.some_bind] at hsq ⊢
              cases hct : parse_varint_u64 bsd with
              | none => rw [hct] at hsq; simp at hsq
              | some ct =>
                obtain ⟨ctv, bsc⟩ := ct
                rw [hct] at hsq
                dsimp only [Option.some_bind] at hsq ⊢
                cases hpn : parse_varint_u32 bsc with
                | none => rw [hpn] at hsq; simp at hsq
                | some pn =>
                  obtain ⟨pnv, bsp⟩ := pn
                  rw [hpn] at hsq
                  simp only [Option.map_some', Option.some.injEq, Prod.mk.injEq] at hsq
                  obtain ⟨⟨hseq, hctv, hpnv⟩, hbs⟩ := hsq
                  subst hseq; subst hctv; subst hpnv; subst hbs
                  rfl
          · rw [if_neg h1] at hsq ⊢
            simp only [Option.some.injEq, Prod.mk.injEq] at hsq
            obtain ⟨⟨hseq, hctv, hpnv⟩, hbs⟩ := hsq
            subst hseq; subst hctv; subst hpnv; subst hbs
            rfl
        rw [hsrc]
        dsimp only
        cases hth : (if is_set flags 2 then parse_varint_u64 bs2
                     else some (prev_header.thread_id, bs2)) with
        | none => rfl
        | some th =>
          obtain ⟨thread_id, bs3⟩ := th
          dsimp only [Option.some_bind]
          cases hst : (if is_set flags 3 then parse_varint_u32 bs3
                       else some (prev_header.stack_id, bs3)) with
          | none => rfl
          | some st =>
            obtain ⟨stack_id, bs4⟩ := st
            dsimp only [Option.some_bind]
            cases hts : parse_varint_i64 bs4 with
            | none => rfl
            | some ts =>
              obtain ⟨tsd, bs5⟩ := ts
              dsimp only [Option.some_bind]
              cases hac : (if is_set flags 4 then readBytes 16 bs5
                           else some (prev_header.activity_id, bs5)) with
              | none => rfl
              | some ac =>
                obtain ⟨activity_id, bs6⟩ := ac
                dsimp only [Option.some_bind]
                cases hrc : (if is_set flags 5 then readBytes 16 bs6
                             else some (prev_header.related_activity_id, bs6)) with
                | none => rfl
                | some rc =>
                  obtain ⟨related_activity_id, bs7⟩ := rc
                  dsimp only [Option.some_bind]
                  cases hps : (if is_set flags 7 then parse_varint_u32 bs7
                               else some (prev_header.payload_size, bs7)) with
                  | none => rfl
                  | some ps =>
                    obtain ⟨payload_size, bs8⟩ := ps
                    rfl

section HeaderReplay

lemma parse_varint_u32_encode {n : Nat} (h : n < 2 ^ 32) (rest : List Nat) :
    parse_varint_u32 (encode_varint n ++ rest) = some (n, rest) := by
  have h64 : n < 2 ^ 64 := by omega
  simp [parse_varint_u32, parse_varint_u64_encode h64]
  omega

lemma parse_varint_i32_encode {n : Nat} (h : n < 2 ^ 32) (rest : List Nat) :
    parse_varint_i32 (encode_varint n ++ rest) = some (toInt32 n, rest) := by
  have h64 : n < 2 ^ 64 := by omega
  simp [parse_varint_i32, parse_varint_u64_encode h64]
  rw [Nat.mod_eq_of_lt (by omega)]

lemma parse_varint_i64_encode {n : Nat} (h : n < 2 ^ 64) (rest : List Nat) :
    parse_varint_i64 (encode_varint n ++ rest) = some (toInt64 n, rest) := by
  simp [parse_varint_i64, parse_varint_u64_encode h]

lemma wrapAdd32_toInt32 {d : Nat} (h : d < 2 ^ 32) : wrapAddSigned32 0 (toInt32 d) = d := by
  unfold wrapAddSigned32 toInt32
  split <;> omega

lemma wrapAdd64_toInt64 {d : Nat} (h : d < 2 ^ 64) : wrapAddSigned64 0 (toInt64 d) = d := by
  unfold wrapAddSigned64 toInt64
  split <;> omega

lemma readBytes_append {l rest : List Nat} (h : l.length = 16) :
    readBytes 16 (l ++ rest) = some (l, rest) := by
  unfold readBytes
  rw [if_pos (by rw [List.length_append]; omega)]
  rw [show (16 : Nat) = l.length from h.symm, List.take_left, List.drop_left]

/-- Modelled from the spec: re-encode a decoded header for the
compressed-header replay property.  Writes, in exactly the stream order of
`parse_compressed_header`, the fields whose flag bits are set; the timestamp
is written as a delta from zero and the sequence number as a delta from zero
minus the increment that decoding will re-apply for a non-zero metadata id
(flag bit 6 carries no payload). -/
def encode_compressed_header (flags : Nat) (h : EventBlobHeader) : List Nat :=
  [flags]
  ++ (if is_set flags 0 then encode_varint h.metadata_id else [])
  ++ (if is_set flags 1 then
        encode_varint ((h.sequence_number + 2 ^ 32 -
            (if h.metadata_id ≠ 0 then 1 else 0)) % 2 ^ 32)
          ++ encode_varint h.capture_thread_id ++ encode_varint h.processor_number
      else [])
  ++ (if is_set flags 2 then encode_varint h.thread_id else [])
  ++ (if is_set flags 3 then encode_varint h.stack_id else [])
  ++ encode_varint h.timestamp
  ++ (if is_set flags 4 then h.activity_id else [])
  ++ (if is_set flags 5 then h.related_activity_id else [])
  ++ (if is_set flags 7 then encode_varint h.payload_size else [])

/-- The shape of every header the compressed-header decoder can yield: the
unread `size` field stays zero, all numeric fields are in machine range, the
activity ids are 16 bytes, and `raw_metadata_id` recombines `is_sorted` with
`metadata_id`. -/
def good_header (h : EventBlobHeader) : Prop :=
  h.size = 0 ∧
  h.metadata_id < 2 ^ 32 ∧ h.sequence_number < 2 ^ 32 ∧ h.thread_id < 2 ^ 64 ∧
  h.capture_thread_id < 2 ^ 64 ∧ h.processor_number < 2 ^ 32 ∧ h.stack_id < 2 ^ 32 ∧
  h.timestamp < 2 ^ 64 ∧ h.payload_size < 2 ^ 32 ∧
  h.activity_id.length = 16 ∧ h.related_activity_id.length = 16 ∧
  h.raw_metadata_id = (if h.is_sorted then 1 <<< 31 else 0) ||| h.metadata_id

instance (h : EventBlobHeader) : Decidable (good_header h) := by
  unfold good_header
  infer_instance

lemma decode_encode_header {h : EventBlobHeader} (hg : good_header h) :
    parse_compressed_header
      (encode_compressed_header (191 ||| (if h.is_sorted then 64 else 0)) h)
      defaultHeader = some (h, []) := by
  obtain ⟨size, raw, seq, thv, ctv, pnv, stv, tsv, act, rel, plv, mdv, srt⟩ := h
  obtain ⟨hsize, hmd, hseq, hth, hct, hpn, hst, hts, hpl, hact, hrel, hraw⟩ := hg
  simp only at hsize hmd hseq hth hct hpn hst hts hpl hact hrel hraw
  subst hsize
  have hd32 : (seq + 2 ^ 32 - (if mdv ≠ 0 then 1 else 0)) % 2 ^ 32 < 2 ^ 32 :=
    Nat.mod_lt _ (by norm_num)
  have hseqfin :
      (if mdv ≠ 0 then
        (wrapAddSigned32 defaultHeader.sequence_number
          (toInt32 ((seq + 2 ^ 32 - (if mdv ≠ 0 then 1 else 0)) % 2 ^ 32)) + 1) % 2 ^ 32
      else wrapAddSigned32 defaultHeader.sequence_number
        (toInt32 ((seq + 2 ^ 32 - (if mdv ≠ 0 then 1 else 0)) % 2 ^ 32))) = seq := by
    have hdflt : defaultHeader.sequence_number = 0 := rfl
    rw [hdflt, wrapAdd32_toInt32 hd32]
    by_cases hmd0 : mdv = 0
    · simp [hmd0]; omega
    · simp [hmd0]; omega
  cases srt with
  | false =>
    have hflags : (191 ||| (if (false : Bool) = true then 64 else 0)) = 191 := by decide
    rw [hflags]
    have hraw0 : raw = mdv := by
      simpa using hraw
    subst hraw0
    unfold encode_compressed_header parse_compressed_header
    simp only [List.append_assoc, List.cons_append, List.singleton_append, List.nil_append]
    have hts0 : wrapAddSigned64 defaultHeader.timestamp (toInt64 tsv) = tsv := by
      have : defaultHeader.timestamp = 0 := rfl
      rw [this, wrapAdd64_toInt64 hts]
    simp only [List.append_assoc, List.cons_append, List.singleton_append, List.nil_append,
      readU8,
      if_pos (show is_set 191 0 = true from by decide),
      if_pos (show is_set 191 1 = true from by decide),
      if_pos (show is_set 191 2 = true from by decide),
      if_pos (show is_set 191 3 = true from by decide),
      if_pos (show is_set 191 4 = true from by decide),
      if_pos (show is_set 191 5 = true from by decide),
      if_neg (show ¬ is_set 191 6 = true from by decide),
      if_pos (show is_set 191 7 = true from by decide),
      parse_varint_u32_encode hmd, parse_varint_u32_encode hpn,
      parse_varint_u32_encode hst, parse_varint_u32_encode hpl,
      parse_varint_u64_encode hct, parse_varint_u64_encode hth,
      parse_varint_i64_encode hts, parse_varint_i32_encode hd32,
      readBytes_append hact, readBytes_append hrel]
    simp only [hts0, hseqfin]
    simp
    rw [← List.append_nil (encode_varint plv)]
    simp only [parse_varint_u32_encode hpl]
    simp [show is_set 191 6 = false from by decide]
  | true =>
    have hflags : (191 ||| (if (true : Bool) = true then 64 else 0)) = 255 := by decide
    rw [hflags]
    unfold encode_compressed_header parse_compressed_header
    simp only [List.append_assoc, List.cons_append, List.singleton_append, List.nil_append]
    have hts0 : wrapAddSigned64 defaultHeader.timestamp (toInt64 tsv) = tsv := by
      have : defaultHeader.timestamp = 0 := rfl
      rw [this, wrapAdd64_toInt64 hts]
    simp only [List.append_assoc, List.cons_append, List.singleton_append, List.nil_append,
      readU8,
      if_pos (show is_set 255 0 = true from by decide),
      if_pos (show is_set 255 1 = true from by decide),
      if_pos (show is_set 255 2 = true from by decide),
      if_pos (show is_set 255 3 = true from by decide),
      if_pos (show is_set 255 4 = true from by decide),
      if_pos (show is_set 255 5 = true from by decide),
      if_pos (show is_set 255 6 = true from by decide),
      if_pos (show is_set 255 7 = true from by decide),
      parse_varint_u32_encode hmd, parse_varint_u32_encode hpn,
      parse_varint_u32_encode hst, parse_varint_u32_encode hpl,
      parse_varint_u64_encode hct, parse_varint_u64_encode hth,
      parse_varint_i64_encode hts, parse_varint_i32_encode hd32,
      readBytes_append hact, readBytes_append hrel]
    simp only [hts0, hseqfin]
    simp [hraw]
    rw [← List.append_nil (encode_varint plv)]
    simp only [parse_varint_u32_encode hpl]
    simp [show is_set 255 6 = true from by decide]

end HeaderReplay

section BlobIterator

/-- Failure characterization of the varint loop: it returns the propagated
I/O error exactly when every remaining input byte has its continuation bit
set, i.e. only at end of input. -/
lemma varintLoop_none_iff (bs : List Nat) : ∀ result shift,
    (varintLoop bs result shift = none ↔ ∀ b ∈ bs, b &&& 128 ≠ 0) := by
  induction bs with
  | nil => simp [varintLoop]
  | cons b rest ih =>
    intro result shift
    simp only [varintLoop]
    by_cases hb : b &&& 128 = 0
    · simp [hb]
    · simp [hb, ih]

/-- Uncompressed `EventBlobHeader` read (the binrw-derived layout in
nettrace/mod.rs): fixed-width little-endian fields; `metadata_id` is
`raw_metadata_id & 0x7fffffff` and `is_sorted` its high bit. -/
def parse_uncompressed_header (bs : List Nat) : Option (EventBlobHeader × List Nat) :=
  match readLE 4 bs with
  | none => none
  | some (size, bs) =>
    match readLE 4 bs with
    | none => none
    | some (raw_metadata_id, bs) =>
      match readLE 4 bs with
      | none => none
      | some (sequence_number, bs) =>
        match readLE 8 bs with
        | none => none
        | some (thread_id, bs) =>
          match readLE 8 bs with
          | none => none
          | some (capture_thread_id, bs) =>
            match readLE 4 bs with
            | none => none
            | some (processor_number, bs) =>
              match readLE 4 bs with
              | none => none
              | some (stack_id, bs) =>
                match readLE 8 bs with
                | none => none
                | some (timestamp, bs) =>
                  match readBytes 16 bs with
                  | none => none
                  | some (activity_id, bs) =>
                    match readBytes 16 bs with
                    | none => none
                    | some (related_activity_id, bs) =>
                      match readLE 4 bs with
                      | none => none
                      | some (payload_size, bs) =>
                        some (⟨size, raw_metadata_id, sequence_number, thread_id,
                          capture_thread_id, processor_number, stack_id, timestamp,
                          activity_id, related_activity_id, payload_size,
                          raw_metadata_id &&& 0x7fffffff,
                          raw_metadata_id &&& 0x80000000 != 0⟩, bs)

/-- `EventBlobIter::parse_header` (parser.rs). -/
def parse_header (bs : List Nat) (prev_header : EventBlobHeader) (is_compressed : Bool) :
    Option (EventBlobHeader × List Nat) :=
  if is_compressed then parse_compressed_header bs prev_header
  else parse_uncompressed_header bs

/-- `EventBlobIter` (parser.rs): the cursor over a block's owned byte
buffer.  `data` is what the cursor has not yet consumed and `pos` the cursor
position; `blob_size` is `block.size - block.header.size`. -/
structure EventBlobIter where
  data : List Nat
  pos : Nat
  blob_size : Nat
  compressed_headers : Bool
  prev_header : EventBlobHeader

/-- `<EventBlobIter as Iterator>::next` (parser.rs).  The header parse and
the `read_exactly` of the payload both `expect` their result, so a truncated
blob aborts the process (`panicked`) instead of surfacing an error value.
The alignment seek of the uncompressed path cannot fail on a cursor. -/
def EventBlobIter.next (it : EventBlobIter) :
    POutcome (Option ((EventBlobHeader × List Nat) × EventBlobIter)) :=
  if it.blob_size ≤ it.pos then .ok none
  else
    match parse_header it.data it.prev_header it.compressed_headers with
    | none => .panicked
    | some (header, rest) =>
      if rest.length < header.payload_size then .panicked
      else
        let payload := rest.take header.payload_size
        let rest2 := rest.drop header.payload_size
        let skip := if !it.compressed_headers && (header.payload_size &&& 3 != 0)
          then 4 - (header.payload_size &&& 3) else 0
        let consumed := it.data.length - rest.length
        .ok (some ((header, payload),
          { data := rest2.drop skip
            pos := it.pos + consumed + header.payload_size + skip
            blob_size := it.blob_size
            compressed_headers := it.compressed_headers
            prev_header := if it.compressed_headers then header else it.prev_header }))

end BlobIterator

section CoreClrEvents

/-- `GcReason` (enums.rs): a binrw `repr(u32)` and `FromPrimitive` enum. -/
inductive GcReason where
  | AllocSmall
  | Induced
  | LowMemory
  | Empty
  | AllocLargeObjectHeap
  | OutOfSpaceSmallObjectHeap
  | OutOfSpaceLargeObjectHeap
  | InducedNotForced
  | Stress
  | InducedLowMemory
deriving DecidableEq, Repr

/-- The `GcReason` discriminant table, shared by the binrw `repr(u32)` read
(which fails on an unknown value) and `FromPrimitive::from_u32`. -/
def gcReasonFromU32 : Nat → Option GcReason
  | 0 => some .AllocSmall
  | 1 => some .Induced
  | 2 => some .LowMemory
  | 3 => some .Empty
  | 4 => some .AllocLargeObjectHeap
  | 5 => some .OutOfSpaceSmallObjectHeap
  | 6 => some .OutOfSpaceLargeObjectHeap
  | 7 => some .InducedNotForced
  | 8 => some .Stress
  | 9 => some .InducedLowMemory
  | _ => none

/-- `GcAllocationKind` (enums.rs). -/
inductive GcAllocationKind where
  | Small
  | Large
  | Pinned
deriving DecidableEq, Repr

def gcAllocationKindFromU32 : Nat → Option GcAllocationKind
  | 0 => some .Small
  | 1 => some .Large
  | 2 => some .Pinned
  | _ => none

/-- `GcType` (enums.rs). -/
inductive GcType where
  | Blocking
  | Background
  | BlockingDuringBackground
deriving DecidableEq, Repr

def gcTypeFromU32 : Nat → Option GcType
  | 0 => some .Blocking
  | 1 => some .Background
  | 2 => some .BlockingDuringBackground
  | _ => none

/-- `GcSuspendEeReason` (enums.rs). -/
inductive GcSuspendEeReason where
  | Other
  | GC
  | AppDomainShutdown
  | CodePitching
  | Shutdown
  | Debugger
  | GcPrep
  | DebuggerSweep
deriving DecidableEq, Repr

def gcSuspendEeReasonFromU32 : Nat → Option GcSuspendEeReason
  | 0 => some .Other
  | 1 => some .GC
  | 2 => some .AppDomainShutdown
  | 3 => some .CodePitching
  | 4 => some .Shutdown
  | 5 => some .Debugger
  | 6 => some .GcPrep
  | 7 => some .DebuggerSweep
  | _ => none

/-- `parse_null_wide_string_to_string` (events.rs): read UTF-16 code units
until the NUL terminator.  A string stays as its code-unit list (an empty
unit list is the empty string). -/
def readNullWide : List Nat → Option (List Nat × List Nat)
  | b0 :: b1 :: rest =>
    let u := b0 + 256 * b1
    if u = 0 then some ([], rest)
    else
      match readNullWide rest with
      | none => none
      | some (us, r) => some (u :: us, r)
  | _ => none

/-- `ModuleLoadUnloadEvent` (events.rs).  `reserved1` is the source's
`_reserved1`. -/
structure ModuleLoadUnloadEvent where
  module_id : Nat
  assembly_id : Nat
  app_domain_id : Option Nat
  module_flags : Nat
  reserved1 : Nat
  module_il_path : List Nat
  module_native_path : List Nat
  clr_instance_id : Option Nat
  managed_pdb_signature : List Nat
  managed_pdb_age : Nat
  managed_pdb_build_path : List Nat
  native_pdb_signature : List Nat
  native_pdb_age : Nat
  native_pdb_build_path : List Nat
deriving DecidableEq, Repr

/-- binrw decode of `ModuleLoadUnloadEvent`: `#[br(if(..))]` fields default
(`None`, zero, empty) when their version gate is below threshold. -/
def decodeModuleLoadUnload (version : Nat) (app_domain : Bool) (bs : List Nat) :
    Option ModuleLoadUnloadEvent :=
  match readLE 8 bs with
  | none => none
  | some (module_id, bs) =>
  match readLE 8 bs with
  | none => none
  | some (assembly_id, bs) =>
  match (if app_domain then (readLE 8 bs).map (fun vr => (some vr.1, vr.2))
         else some (none, bs)) with
  | none => none
  | some (app_domain_id, bs) =>
  match readLE 4 bs with
  | none => none
  | some (module_flags, bs) =>
  match readLE 4 bs with
  | none => none
  | some (reserved1, bs) =>
  match readNullWide bs with
  | none => none
  | some (module_il_path, bs) =>
  match readNullWide bs with
  | none => none
  | some (module_native_path, bs) =>
  match (if 1 ≤ version then (readLE 2 bs).map (fun vr => (some vr.1, vr.2))
         else some (none, bs)) with
  | none => none
  | some (clr_instance_id, bs) =>
  match (if 2 ≤ version then readBytes 16 bs else some (List.replicate 16 0, bs)) with
  | none => none
  | some (managed_pdb_signature, bs) =>
  match (if 2 ≤ version then readLE 4 bs else some (0, bs)) with
  | none => none
  | some (managed_pdb_age, bs) =>
  match (if 2 ≤ version then readNullWide bs else some ([], bs)) with
  | none => none
  | some (managed_pdb_build_path, bs) =>
  match (if 2 ≤ version then readBytes 16 bs else some (List.replicate 16 0, bs)) with
  | none => none
  | some (native_pdb_signature, bs) =>
  match (if 2 ≤ version then readLE 4 bs else some (0, bs)) with
  | none => none
  | some (native_pdb_age, bs) =>
  match (if 2 ≤ version then readNullWide bs else some ([], bs)) with
  | none => none
  | some (native_pdb_build_path, _) =>
    some ⟨module_id, assembly_id, app_domain_id, module_flags, reserved1, module_il_path,
      module_native_path, clr_instance_id, managed_pdb_signature, managed_pdb_age,
      managed_pdb_build_path, native_pdb_signature, native_pdb_age, native_pdb_build_path⟩

/-- `MethodLoadUnloadEvent` (events.rs). -/
structure MethodLoadUnloadEvent where
  method_id : Nat
  module_id : Nat
  method_start_address : Nat
  method_size : Nat
  method_token : Nat
  method_flags : Nat
  method_namespace : List Nat
  method_name : List Nat
  method_signature : List Nat
  clr_instance_id : Option Nat
  re_jit_id : Option Nat
deriving DecidableEq, Repr

/-- binrw decode of `MethodLoadUnloadEvent`: the three name strings are
present only for verbose events, `clr_instance_id` from version 1 and
`re_jit_id` from version 2. -/
def decodeMethodLoadUnload (version : Nat) (verbose : Bool) (bs : List Nat) :
    Option MethodLoadUnloadEvent :=
  match readLE 8 bs with
  | none => none
  | some (method_id, bs) =>
  match readLE 8 bs with
  | none => none
  | some (module_id, bs) =>
  match readLE 8 bs with
  | none => none
  | some (method_start_address, bs) =>
  match readLE 4 bs with
  | none => none
  | some (method_size, bs) =>
  match readLE 4 bs with
  | none => none
  | some (method_token, bs) =>
  match readLE 4 bs with
  | none => none
  | some (method_flags, bs) =>
  match (if verbose then readNullWide bs else some ([], bs)) with
  | none => none
  | some (method_namespace, bs) =>
  match (if verbose then readNullWide bs else some ([], bs)) with
  | none => none
  | some (method_name, bs) =>
  match (if verbose then readNullWide bs else some ([], bs)) with
  | none => none
  | some (method_signature, bs) =>
  match (if 1 ≤ version then (readLE 2 bs).map (fun vr => (some vr.1, vr.2))
         else some (none, bs)) with
  | none => none
  | some (clr_instance_id, bs) =>
  match (if 2 ≤ version then (readLE 8 bs).map (fun vr => (some vr.1, vr.2))
         else some (none, bs)) with
  | none => none
  | some (re_jit_id, _) =>
    some ⟨method_id, module_id, method_start_address, method_size, method_token,
      method_flags, method_namespace, method_name, method_signature, clr_instance_id,
      re_jit_id⟩

/-- `GcTriggeredEvent` (events.rs). -/
structure GcTriggeredEvent where
  reason : GcReason
  clr_instance_id : Nat
deriving DecidableEq, Repr

/-- binrw decode of `GcTriggeredEvent`: the `reason` field is a
`repr(u32)` enum, so an unknown wire value is a binrw error (`none`), not a
sentinel. -/
def decodeGcTriggered (bs : List Nat) : Option GcTriggeredEvent :=
  match readLE 4 bs with
  | none => none
  | some (r, bs) =>
    match gcReasonFromU32 r with
    | none => none
    | some reason =>
      match readLE 2 bs with
      | none => none
      | some (clr_instance_id, _) => some ⟨reason, clr_instance_id⟩

/-- `GcStartEvent` (events.rs). -/
structure GcStartEvent where
  count : Nat
  depth : Option Nat
  reason : GcReason
  gc_type : Option GcType
  clr_instance_id : Option Nat
  client_sequence_number : Option Nat
deriving DecidableEq, Repr

/-- `GcEndEvent` (events.rs). -/
structure GcEndEvent where
  count : Nat
  depth : Nat
  reason : Option GcReason
deriving DecidableEq, Repr

/-- `GcAllocationTickEvent` (events.rs). -/
structure GcAllocationTickEvent where
  allocation_amount : Nat
  allocation_kind : GcAllocationKind
  clr_instance_id : Nat
  allocation_amount64 : Nat
  type_id : Nat
  type_name : List Nat
  heap_index : Nat
  address : Option Nat
  object_size : Option Nat
deriving DecidableEq, Repr

/-- binrw decode of `GcAllocationTickEvent`. -/
def decodeGcAllocationTick (version : Nat) (bs : List Nat) :
    Option GcAllocationTickEvent :=
  match readLE 4 bs with
  | none => none
  | some (allocation_amount, bs) =>
  match readLE 4 bs with
  | none => none
  | some (k, bs) =>
  match gcAllocationKindFromU32 k with
  | none => none
  | some allocation_kind =>
  match readLE 2 bs with
  | none => none
  | some (clr_instance_id, bs) =>
  match (if 2 ≤ version then readLE 8 bs else some (0, bs)) with
  | none => none
  | some (allocation_amount64, bs) =>
  match (if 2 ≤ version then readLE 8 bs else some (0, bs)) with
  | none => none
  | some (type_id, bs) =>
  match (if 2 ≤ version then readNullWide bs else some ([], bs)) with
  | none => none
  | some (type_name, bs) =>
  match (if 2 ≤ version then readLE 4 bs else some (0, bs)) with
  | none => none
  | some (heap_index, bs) =>
  match (if 3 ≤ version then (readLE 8 bs).map (fun vr => (some vr.1, vr.2))
         else some (none, bs)) with
  | none => none
  | some (address, bs) =>
  match (if 4 ≤ version then (readLE 8 bs).map (fun vr => (some vr.1, vr.2))
         else some (none, bs)) with
  | none => none
  | some (object_size, _) =>
    some ⟨allocation_amount, allocation_kind, clr_instance_id, allocation_amount64,
      type_id, type_name, heap_index, address, object_size⟩

/-- `GcSampledObjectAllocationEvent` (events.rs). -/
structure GcSampledObjectAllocationEvent where
  address : Nat
  type_id : Nat
  object_count_for_type_sample : Nat
  total_size_for_type_sample : Nat
  clr_instance_id : Nat
deriving DecidableEq, Repr

/-- binrw decode of `GcSampledObjectAllocationEvent`. -/
def decodeGcSampledObjectAllocation (bs : List Nat) :
    Option GcSampledObjectAllocationEvent :=
  match readLE 8 bs with
  | none => none
  | some (address, bs) =>
  match readLE 8 bs with
  | none => none
  | some (type_id, bs) =>
  match readLE 4 bs with
  | none => none
  | some (object_count_for_type_sample, bs) =>
  match readLE 8 bs with
  | none => none
  | some (total_size_for_type_sample, bs) =>
  match readLE 2 bs with
  | none => none
  | some (clr_instance_id, _) =>
    some ⟨address, type_id, object_count_for_type_sample, total_size_for_type_sample,
      clr_instance_id⟩

/-- `ReadyToRunGetEntryPointEvent` (events.rs). -/
structure ReadyToRunGetEntryPointEvent where
  method_id : Nat
  method_namespace : List Nat
  method_name : List Nat
  method_signature : List Nat
  entry_point : Nat
  clr_instance_id : Nat
deriving DecidableEq, Repr

/-- binrw decode of `ReadyToRunGetEntryPointEvent`. -/
def decodeReadyToRunGetEntryPoint (bs : List Nat) :
    Option ReadyToRunGetEntryPointEvent :=
  match readLE 8 bs with
  | none => none
  | some (method_id, bs) =>
  match readNullWide bs with
  | none => none
  | some (method_namespace, bs) =>
  match readNullWide bs with
  | none => none
  | some (method_name, bs) =>
  match readNullWide bs with
  | none => none
  | some (method_signature, bs) =>
  match readLE 8 bs with
  | none => none
  | some (entry_point, bs) =>
  match readLE 2 bs with
  | none => none
  | some (clr_instance_id, _) =>
    some ⟨method_id, method_namespace, method_name, method_signature, entry_point,
      clr_instance_id⟩

/-- `CoreClrEvent` (events.rs): the typed-event union produced by the
EventPipe and ETW decoders. -/
inductive CoreClrEvent where
  | ModuleLoad (e : ModuleLoadUnloadEvent)
  | ModuleUnload (e : ModuleLoadUnloadEvent)
  | MethodLoad (e : MethodLoadUnloadEvent)
  | MethodUnload (e : MethodLoadUnloadEvent)
  | GcTriggered (e : GcTriggeredEvent)
  | GcStart (e : GcStartEvent)
  | GcEnd (e : GcEndEvent)
  | GcAllocationTick (e : GcAllocationTickEvent)
  | GcSampledObjectAllocation (e : GcSampledObjectAllocationEvent)
  | ReadyToRunGetEntryPoint (e : ReadyToRunGetEntryPointEvent)
  | MethodDCEnd (e : MethodLoadUnloadEvent)
deriving DecidableEq, Repr

/-- Discriminates the `MethodLoad` constructor. -/
def CoreClrEvent.isMethodLoad : CoreClrEvent → Bool
  | .MethodLoad _ => true
  | _ => false

/-- `EventMetadata` (lib.rs). -/
structure EventMetadata where
  timestamp : Nat
  process_id : Nat
  thread_id : Nat
  stack : Option (List Nat)
  is_rundown : Bool
deriving DecidableEq, Repr

/-- `NettraceEvent` (nettrace/mod.rs). -/
structure NettraceEvent where
  provider_name : String
  event_id : Nat
  event_name : Option String
  event_keywords : Nat
  event_version : Nat
  event_level : Nat
  event_opcode : Option Nat
  sequence_number : Nat
  thread_id : Nat
  capture_thread_id : Nat
  processor_number : Option Nat
  stack : List Nat
  timestamp : Nat
  activity_id : List Nat
  related_activity_id : List Nat
  payload : List Nat
deriving DecidableEq, Repr

/-- `to_event_metadata` (coreclr/eventpipe.rs): nettrace events are
single-process, so `process_id` is the `u32::MAX` sentinel. -/
def to_event_metadata (event : NettraceEvent) (is_rundown : Bool) : EventMetadata :=
  { timestamp := event.timestamp
    process_id := 4294967295
    thread_id := event.thread_id % 2 ^ 32
    stack := none
    is_rundown := is_rundown }

/-- `decode_coreclr_regular_event` (coreclr/eventpipe.rs).  Every branch
`.unwrap()`s its binrw decode, so a payload the schema rejects (including an
unknown enum discriminant) aborts the process. -/
def decode_coreclr_regular_event (event : NettraceEvent) :
    POutcome (Option (EventMetadata × CoreClrEvent)) :=
  let meta := to_event_metadata event false
  match event.event_id with
  | 151 =>
    match decodeModuleLoadUnload event.event_version true event.payload with
    | none => .panicked
    | some ev => .ok (some (meta, .ModuleLoad ev))
  | 152 =>
    match decodeModuleLoadUnload event.event_version false event.payload with
    | none => .panicked
    | some ev => .ok (some (meta, .ModuleLoad ev))
  | 153 =>
    match decodeModuleLoadUnload event.event_version false event.payload with
    | none => .panicked
    | some ev => .ok (some (meta, .ModuleUnload ev))
  | 159 =>
    match decodeReadyToRunGetEntryPoint event.payload with
    | none => .panicked
    | some ev => .ok (some (meta, .ReadyToRunGetEntryPoint ev))
  | 141 =>
    match decodeMethodLoadUnload event.event_version false event.payload with
    | none => .panicked
    | some ev => .ok (some (meta, .MethodLoad ev))
  | 142 =>
    match decodeMethodLoadUnload event.event_version false event.payload with
    | none => .panicked
    | some ev => .ok (some (meta, .MethodUnload ev))
  | 143 =>
    match decodeMethodLoadUnload event.event_version true event.payload with
    | none => .panicked
    | some ev => .ok (some (meta, .MethodLoad ev))
  | 144 =>
    match decodeMethodLoadUnload event.event_version true event.payload with
    | none => .panicked
    | some ev => .ok (some (meta, .MethodUnload ev))
  | 35 =>
    match decodeGcTriggered event.payload with
    | none => .panicked
    | some ev => .ok (some (meta, .GcTriggered ev))
  | 1 => .ok none
  | 2 => .ok none
  | 3 => .ok none
  | 7 => .ok none
  | 8 => .ok none
  | 9 => .ok none
  | 10 =>
    match decodeGcAllocationTick event.event_version event.payload with
    | none => .panicked
    | some ev => .ok (some (meta, .GcAllocationTick ev))
  | 20 | 30 =>
    match decodeGcSampledObjectAllocation event.payload with
    | none => .panicked
    | some ev => .ok (some (meta, .GcSampledObjectAllocation ev))
  | _ => .ok none

/-- `decode_coreclr_rundown_event` (coreclr/eventpipe.rs): only event id 144
(Method DC start or end, verbose) is decoded, into the `MethodDCEnd`
variant. -/
def decode_coreclr_rundown_event (event : NettraceEvent) :
    POutcome (Option (EventMetadata × CoreClrEvent)) :=
  let meta := to_event_metadata event true
  match event.event_id with
  | 144 =>
    match decodeMethodLoadUnload event.event_version true event.payload with
    | none => .panicked
    | some ev => .ok (some (meta, .MethodDCEnd ev))
  | _ => .ok none

/-- `decode_coreclr_event` (coreclr/eventpipe.rs): dispatch on the provider
name. -/
def decode_coreclr_event (event : NettraceEvent) :
    POutcome (Option (EventMetadata × CoreClrEvent)) :=
  if event.provider_name = "Microsoft-Windows-DotNETRuntime" then
    decode_coreclr_regular_event event
  else if event.provider_name = "Microsoft-Windows-DotNETRuntimeRundown" then
    decode_coreclr_rundown_event event
  else .ok none

end CoreClrEvents

section EtwAdapter

/-- The event-metadata literal constructed in coreclr/etw.rs: timestamp,
process id, thread id, optional stack.  The source literal omits lib.rs's
`is_rundown` field (the `etw` module is `cfg(windows)`-gated and stale
against the current `EventMetadata`), so the adapter is modelled over
exactly the fields it sets. -/
structure EtwEventMetadata where
  timestamp : Nat
  process_id : Nat
  thread_id : Nat
  stack : Option (List Nat)
deriving DecidableEq, Repr

/-- `EventMetadata::with_stack` (lib.rs), as used by the ETW stack-attach
path. -/
def EtwEventMetadata.with_stack (m : EtwEventMetadata) (stack : List Nat) :
    EtwEventMetadata :=
  { m with stack := some stack }

/-- The `TypedEvent` row handed over by the external ETW session
(etw_reader): a `"Provider/Task/Opcode"` name plus the row ids the adapter
reads. -/
structure TypedEvent where
  name : String
  timestamp : Nat
  process_id : Nat
  thread_id : Nat

/-- The external property accessor (`etw_reader::parser::Parser`): typed
fetch by field name, plus the trailing user-data buffer.  It is an external
collaborator, so its getters are total interface functions. -/
structure EtwProps where
  getNum : String → Nat
  tryGetNum : String → Option Nat
  getStr : String → List Nat
  getBytes : String → List Nat
  buffer : List Nat

/-- Characters up to the first slash, and the characters after it when one
exists. -/
def takeSeg : List Char → List Char × Option (List Char)
  | [] => ([], none)
  | c :: cs =>
    if c = '/' then ([], some cs)
    else
      let r := takeSeg cs
      (c :: r.1, r.2)

/-- `name.splitn(3, char)` on the slash-separated event name: provider,
task, and the remainder (slashes included); fewer than three parts makes
the source's `next().unwrap()` panic (`none`). -/
def splitn3 (s : String) : Option (String × String × String) :=
  match takeSeg s.data with
  | (_, none) => none
  | (a, some rest1) =>
    match takeSeg rest1 with
    | (_, none) => none
    | (b, some rest2) => some (⟨a⟩, ⟨b⟩, ⟨rest2⟩)

/-- `str::ends_with(' ')`. -/
def endsWithSpace (s : String) : Bool :=
  match s.data.getLast? with
  | some c => c = ' '
  | none => false

/-- `str::trim`: strip leading and trailing whitespace. -/
def trimString (s : String) : String :=
  ⟨((s.data.dropWhile Char.isWhitespace).reverse.dropWhile Char.isWhitespace).reverse⟩

/-- The unmerged-ETL task/opcode rename table (coreclr/etw.rs), applied when
either part carries trailing whitespace; includes the verbatim
`PerHeapHisory` pass-through. -/
def normalize_task_opcode (task opcode : String) : String × String :=
  if endsWithSpace task || endsWithSpace opcode then
    let task := trimString task
    let opcode := trimString opcode
    match task with
    | "Method" =>
      ("CLRMethod",
        match opcode with
        | "LoadVerbose" => "MethodLoadVerbose"
        | "UnloadVerbose" => "MethodUnloadVerbose"
        | "DCStartVerbose" => "MethodDCStartVerbose"
        | "DCEndVerbose" => "MethodDCEndVerbose"
        | "JittingStarted" => "MethodJittingStarted"
        | _ => trimString opcode)
    | "Loader" =>
      ("CLRLoader",
        match opcode with
        | "ModuleDCStart" => "ModuleDCStart"
        | _ => trimString opcode)
    | "Runtime" => ("CLRRuntimeInformation", trimString opcode)
    | "GC" =>
      ("GarbageCollection",
        match opcode with
        | "PerHeapHisory" => opcode
        | "GCDynamicEvent" => opcode
        | "Start" => "win:Start"
        | "Stop" => "win:Stop"
        | "RestartEEStart" => "GCRestartEEBegin"
        | "RestartEEStop" => "GCRestartEEEnd"
        | "SuspendEEStart" => "GCSuspendEEBegin"
        | "SuspendEEStop" => "GCSuspendEEEnd"
        | _ => trimString opcode)
    | "ClrStack" =>
      ("CLRStack",
        match opcode with
        | "Walk" => "CLRStackWalk"
        | _ => trimString opcode)
    | _ => (task, opcode)
  else (task, opcode)

/-- `chunks_exact(8)`: split into 8-byte groups, dropping any remainder. -/
def chunksExact8 : List Nat → List (List Nat)
  | a :: b :: c :: d :: e :: f :: g :: h :: rest =>
    [a, b, c, d, e, f, g, h] :: chunksExact8 rest
  | _ => []

/-- `u64::from_le_bytes`. -/
def leVal : List Nat → Nat
  | [] => 0
  | b :: rest => b + 256 * leVal rest

/-- The big `(task, opcode)` match of `etw_event_to_coreclr_event`
(coreclr/etw.rs) that decodes a non-stackwalk row into a typed event.  The
GC enum reads fall back to their sentinel (`GcReason::Empty`) or to `None`
via `FromPrimitive::from_u32`; branches the source leaves as TODO yield
`none`. -/
def etw_new_event (task opcode : String) (p : EtwProps) : Option CoreClrEvent :=
  if task = "CLRMethod" ∨ task = "CLRMethodRundown" then
    if opcode = "MethodLoadVerbose" ∨ opcode = "MethodDCStartVerbose" ∨
        opcode = "MethodDCEndVerbose" then
      some (.MethodLoad
        { method_id := p.getNum "MethodID"
          module_id := p.getNum "ModuleID"
          method_start_address := p.getNum "MethodStartAddress"
          method_size := p.getNum "MethodSize"
          method_token := p.getNum "MethodToken"
          method_flags := p.getNum "MethodFlags"
          method_namespace := p.getStr "MethodNamespace"
          method_name := p.getStr "MethodName"
          method_signature := p.getStr "MethodSignature"
          clr_instance_id := p.tryGetNum "ClrInstanceID"
          re_jit_id := p.tryGetNum "ReJITID" })
    else none
  else if task = "CLRLoader" ∨ task = "CLRLoaderRundown" then none
  else if task = "GarbageCollection" then
    if opcode = "GCSampledObjectAllocation" then
      some (.GcSampledObjectAllocation
        { address := p.getNum "Address"
          type_id := p.getNum "TypeID"
          object_count_for_type_sample := p.getNum "ObjectCountForTypeSample"
          total_size_for_type_sample := p.getNum "TotalSizeForTypeSample"
          clr_instance_id := p.getNum "ClrInstanceID" })
    else if opcode = "Triggered" then
      some (.GcTriggered
        { reason := (gcReasonFromU32 (p.getNum "Reason")).getD GcReason.Empty
          clr_instance_id := 0 })
    else if opcode = "win:Start" then
      some (.GcStart
        { count := p.getNum "Count"
          depth := p.tryGetNum "Depth"
          reason := (gcReasonFromU32 (p.getNum "Reason")).getD GcReason.Empty
          gc_type := (p.tryGetNum "Type").bind gcTypeFromU32
          clr_instance_id := p.tryGetNum "ClrInstanceID"
          client_sequence_number := p.tryGetNum "ClientSequenceNumber" })
    else if opcode = "win:Stop" then
      some (.GcEnd
        { count := p.getNum "Count"
          depth := p.getNum "Depth"
          reason := (p.tryGetNum "Reason").bind gcReasonFromU32 })
    else none
  else none

/-- The `last_event_on_thread` per-thread pending slot
(`HashMap<u32, (EventMetadata, CoreClrEvent)>`), modelled as a
duplicate-free association list. -/
def EtwState := List (Nat × (EtwEventMetadata × CoreClrEvent))

/-- `HashMap::remove` of a thread's slot (the removed value, when any, is
obtained separately with `List.lookup`). -/
def removeThread (st : EtwState) (tid : Nat) : EtwState :=
  st.filter (fun kv => kv.1 != tid)

/-- `CoreClrEtwConverter::etw_event_to_coreclr_event` (coreclr/etw.rs).  The
pending slot for the row's thread is always removed first; a stack-walk row
attaches its addresses (the declared-length-2 `Stack` field chained with the
trailing buffer, in 8-byte little-endian chunks) to the pending event and
returns it; any other recognized row is stored in the slot and the
previously pending event is returned unattached. -/
def etw_event_to_coreclr_event (st : EtwState) (s : TypedEvent) (p : EtwProps) :
    POutcome (Option (EtwEventMetadata × CoreClrEvent) × EtwState) :=
  match splitn3 s.name with
  | none => .panicked
  | some (provider, task0, opcode0) =>
    if provider = "Microsoft-Windows-DotNETRuntime" ∨
        provider = "Microsoft-Windows-DotNETRuntimeRundown" then
      let to2 := normalize_task_opcode task0 opcode0
      let task := to2.1
      let opcode := to2.2
      let tid := s.thread_id
      let pending_event := List.lookup tid st
      let st1 := removeThread st tid
      if task = "CLRStack" ∧ opcode = "CLRStackWalk" then
        match pending_event with
        | none => .ok (none, st1)
        | some pe =>
          let addrs := (chunksExact8 (p.getBytes "Stack") ++ chunksExact8 p.buffer).map leVal
          .ok (some (pe.1.with_stack addrs, pe.2), st1)
      else
        let common : EtwEventMetadata :=
          { timestamp := s.timestamp
            process_id := s.process_id
            thread_id := s.thread_id
            stack := none }
        match etw_new_event task opcode p with
        | some e => .ok (pending_event, (tid, (common, e)) :: st1)
        | none => .ok (pending_event, st1)
    else .panicked

end EtwAdapter

section ObjectStream

/-- `NettraceTime` (nettrace/mod.rs). -/
structure NettraceTime where
  year : Nat
  month : Nat
  day_of_week : Nat
  day : Nat
  hour : Nat
  minute : Nat
  second : Nat
  millisecond : Nat
deriving DecidableEq, Repr

/-- `NettraceTraceObject` (nettrace/mod.rs). -/
structure NettraceTraceObject where
  sync_time_utc : NettraceTime
  sync_time_qpc : Nat
  qpc_frequency : Nat
  pointer_size : Nat
  process_id : Nat
  number_of_processors : Nat
  expected_cpu_sampling_rate : Nat
deriving DecidableEq, Repr

/-- `MetadataDefinition` (nettrace/mod.rs) with the opcode/v2-layout tags
already folded in by `handle_metadata_block`; only the fields `parse_event`
copies into events are retained (the field layout drives no claim). -/
structure MetadataDefinition where
  id : Nat
  provider_name : String
  event_id : Nat
  event_name : String
  keywords : Nat
  version : Nat
  level : Nat
  opcode : Option Nat
deriving DecidableEq, Repr

/-- One framed object of the FastSerialization stream, at the granularity
`next_event` dispatches on: the type object's name together with the parsed
body.  `unknown` carries a type name no recognized arm matches. -/
inductive NtObject where
  | trace (t : NettraceTraceObject)
  | metadataBlock (defs : List MetadataDefinition)
  | stackBlock (first_id : Nat) (stackList : List (List Nat))
  | spBlock
  | eventBlock (blobs : List (EventBlobHeader × List Nat))
  | unknown (name : String)
deriving DecidableEq, Repr

/-- The type-object name carried by each object
(`NettraceTypeObject::type_name`). -/
def typeName : NtObject → String
  | .trace _ => "Trace"
  | .metadataBlock _ => "MetadataBlock"
  | .stackBlock _ _ => "StackBlock"
  | .spBlock => "SPBlock"
  | .eventBlock _ => "EventBlock"
  | .unknown name => name

/-- `EventPipeParser` state (parser.rs): the remaining object stream, the
two registries, the cached trace info and the active event-blob
iterator's remaining blobs. -/
structure PState where
  objects : List NtObject
  metadata_map : List (Nat × MetadataDefinition)
  stack_map : List (Nat × List Nat)
  trace_info : Option NettraceTraceObject
  cur_blobs : Option (List (EventBlobHeader × List Nat))
deriving DecidableEq, Repr

/-- `EventPipeParser::new` with the magic already checked: empty registries,
no cached trace info, no active iterator. -/
def open_state (objs : List NtObject) : PState :=
  ⟨objs, [], [], none, none⟩

/-- `HashMap::insert` (duplicate ids overwrite) on an association list. -/
def insertA (m : List (Nat × α)) (k : Nat) (v : α) : List (Nat × α) :=
  (k, v) :: m.filter (fun kv => kv.1 != k)

/-- `handle_metadata_block`'s insertion loop (parser.rs). -/
def insertAllDefs (m : List (Nat × MetadataDefinition)) :
    List MetadataDefinition → List (Nat × MetadataDefinition)
  | [] => m
  | d :: rest => insertAllDefs (insertA m d.id d) rest

/-- The `StackBlock` loop (parser.rs): successive stacks are stored under
`first_id`, `first_id + 1`, …. -/
def insertStacks (m : List (Nat × List Nat)) (first_id : Nat) :
    List (List Nat) → List (Nat × List Nat)
  | [] => m
  | st :: rest => insertStacks (insertA m first_id st) (first_id + 1) rest

/-- `EventPipeParser::parse_event` (parser.rs): resolve the blob's metadata
id (absent id is the fatal `AssertFail`), resolve the stack id (absent id
gives the empty stack), and build the `NettraceEvent` from the schema and
the header. -/
def parse_event (metadata_map : List (Nat × MetadataDefinition))
    (stack_map : List (Nat × List Nat)) (header : EventBlobHeader)
    (payload : List Nat) : Except String NettraceEvent :=
  match List.lookup header.metadata_id metadata_map with
  | none => .error "Metadata definition not found"
  | some d =>
    .ok { provider_name := d.provider_name
          event_id := d.event_id
          event_name := if 0 < d.event_name.length then some d.event_name else none
          event_keywords := d.keywords
          event_version := d.version
          event_level := d.level
          event_opcode := d.opcode
          sequence_number := header.sequence_number
          thread_id := header.thread_id
          capture_thread_id := header.capture_thread_id
          processor_number := if header.processor_number ≠ 4294967295
            then some header.processor_number else none
          stack := (List.lookup header.stack_id stack_map).getD []
          timestamp := header.timestamp
          activity_id := header.activity_id
          related_activity_id := header.related_activity_id
          payload := payload }

/-- The object loop of `next_event` (parser.rs): read objects until an
`EventBlock` produces an event or the stream ends.  `Trace` refreshes the
cached trace info, `MetadataBlock` and `StackBlock` feed the registries,
`SPBlock` is read and discarded, and an unknown type name is fatal. -/
def objectLoop :
    List NtObject → List (Nat × MetadataDefinition) → List (Nat × List Nat) →
      Option NettraceTraceObject → Except String (Option NettraceEvent × PState)
  | [], mm, sm, ti => .ok (none, ⟨[], mm, sm, ti, none⟩)
  | obj :: rest, mm, sm, ti =>
    match obj with
    | .trace t => objectLoop rest mm sm (some t)
    | .metadataBlock defs => objectLoop rest (insertAllDefs mm defs) sm ti
    | .stackBlock fid stackList => objectLoop rest mm (insertStacks sm fid stackList) ti
    | .spBlock => objectLoop rest mm sm ti
    | .eventBlock blobs =>
      match blobs with
      | [] => objectLoop rest mm sm ti
      | (header, payload) :: more =>
        match parse_event mm sm header payload with
        | .error e => .error e
        | .ok ev => .ok (some ev, ⟨rest, mm, sm, ti, some more⟩)
    | .unknown _ => .error "Unknown object type"

/-- `EventPipeParser::next_event` (parser.rs): keep draining the active
event-blob iterator; once it is exhausted, fall back to the object loop. -/
def next_event (s : PState) : Except String (Option NettraceEvent × PState) :=
  match s.cur_blobs with
  | some ((header, payload) :: more) =>
    match parse_event s.metadata_map s.stack_map header payload with
    | .error e => .error e
    | .ok ev => .ok (some ev, { s with cur_blobs := some more })
  | some [] => objectLoop s.objects s.metadata_map s.stack_map s.trace_info
  | none => objectLoop s.objects s.metadata_map s.stack_map s.trace_info

/-- `EventPipeParser::trace_info` (parser.rs): return the cached value if
present; otherwise read the next object and demand its type name equal
`"TraceObject"` — any other first object, including one with the stream's
actual recognized name `"Trace"`, is the `Expected TraceObject` error.  The
success arm of that check is reachable only by a stream whose first object
carries the unrecognized name `"TraceObject"`; this object-granularity model
carries no raw body bytes for such an object, so that arm is represented by
its own marker error and no claim depends on it. -/
def trace_info (s : PState) : Except String (NettraceTraceObject × PState) :=
  match s.trace_info with
  | some t => .ok (t, s)
  | none =>
    match s.objects with
    | [] => .error "Expected NettraceTraceObject"
    | obj :: _ =>
      if typeName obj = "TraceObject" then
        .error "TraceObject body bytes not modelled"
      else .error "Expected TraceObject"

/-- Provenance of the metadata registry: every entry was inserted, under its
own id, while handling some `MetadataBlock` among the already-consumed
objects. -/
def MetadataFromPrefix (pre : List NtObject) (mm : List (Nat × MetadataDefinition)) : Prop :=
  ∀ k d, (k, d) ∈ mm → d.id = k ∧ ∃ defs, NtObject.metadataBlock defs ∈ pre ∧ d ∈ defs

/-- A parser state reachable from the stream `objs0`: the unread objects are
a suffix of `objs0` and the metadata registry is explained by the consumed
prefix. -/
def Reached (objs0 : List NtObject) (s : PState) : Prop :=
  ∃ pre, objs0 = pre ++ s.objects ∧ MetadataFromPrefix pre s.metadata_map

/-- A produced event is built from a schema definition that an earlier
`MetadataBlock` of the same stream registered. -/
def EventFromEarlierMetadata (objs0 : List NtObject) (s1 : PState)
    (ev : NettraceEvent) : Prop :=
  ∃ pre defs d, objs0 = pre ++ s1.objects ∧ NtObject.metadataBlock defs ∈ pre ∧
    d ∈ defs ∧ ev.provider_name = d.provider_name ∧ ev.event_id = d.event_id ∧
    ev.event_version = d.version ∧ ev.event_keywords = d.keywords ∧
    ev.event_level = d.level

lemma MetadataFromPrefix.mono {pre post : List NtObject}
    {mm : List (Nat × MetadataDefinition)} (h : MetadataFromPrefix pre mm) :
    MetadataFromPrefix (pre ++ post) mm := by
  intro k d hm
  obtain ⟨hid, defs, hdefs, hd⟩ := h k d hm
  exact ⟨hid, defs, List.mem_append_left _ hdefs, hd⟩

lemma mem_insertA {m : List (Nat × α)} {k k0 : Nat} {d v : α}
    (h : (k, d) ∈ insertA m k0 v) : (k = k0 ∧ d = v) ∨ (k, d) ∈ m := by
  unfold insertA at h
  rcases List.mem_cons.mp h with h1 | h1
  · left
    exact ⟨congrArg Prod.fst h1, congrArg Prod.snd h1⟩
  · right
    exact List.mem_of_mem_filter h1

lemma mem_insertAllDefs :
    ∀ {defs : List MetadataDefinition} {m : List (Nat × MetadataDefinition)}
      {k : Nat} {d : MetadataDefinition},
      (k, d) ∈ insertAllDefs m defs → (k, d) ∈ m ∨ (d ∈ defs ∧ d.id = k) := by
  intro defs
  induction defs with
  | nil => intro m k d h; exact Or.inl h
  | cons d0 rest ih =>
    intro m k d h
    rcases ih h with h1 | h1
    · rcases mem_insertA h1 with ⟨hk, hd⟩ | h2
      · subst hd
        exact Or.inr ⟨List.mem_cons_self _ _, hk.symm⟩
      · exact Or.inl h2
    · exact Or.inr ⟨List.mem_cons_of_mem _ h1.1, h1.2⟩

lemma lookup_mem {m : List (Nat × α)} {k : Nat} {d : α}
    (h : List.lookup k m = some d) : (k, d) ∈ m := by
  induction m with
  | nil => simp [List.lookup] at h
  | cons kv rest ih =>
    obtain ⟨k1, v1⟩ := kv
    simp only [List.lookup] at h
    by_cases hk : k = k1
    · subst hk
      simp at h
      subst h
      exact List.mem_cons_self _ _
    · have hbeq : (k == k1) = false := beq_false_of_ne hk
      rw [hbeq] at h
      simp at h
      exact List.mem_cons_of_mem _ (ih h)

lemma objectLoop_sound :
    ∀ (objs : List NtObject) (mm : List (Nat × MetadataDefinition))
      (sm : List (Nat × List Nat)) (ti : Option NettraceTraceObject)
      (pre objs0 : List NtObject) (r : Option NettraceEvent) (s1 : PState),
      objs0 = pre ++ objs → MetadataFromPrefix pre mm →
      objectLoop objs mm sm ti = .ok (r, s1) →
      Reached objs0 s1 ∧ ∀ ev, r = some ev → EventFromEarlierMetadata objs0 s1 ev := by
  intro objs
  induction objs with
  | nil =>
    intro mm sm ti pre objs0 r s1 hsplit hmfp hrun
    simp only [objectLoop, Except.ok.injEq, Prod.mk.injEq] at hrun
    obtain ⟨hr, hs1⟩ := hrun
    subst hs1
    refine ⟨⟨pre, by simpa using hsplit, hmfp⟩, ?_⟩
    intro ev hev
    rw [← hr] at hev
    exact absurd hev (by simp)
  | cons obj rest ih =>
    intro mm sm ti pre objs0 r s1 hsplit hmfp hrun
    cases obj with
    | trace t =>
      simp only [objectLoop] at hrun
      exact ih mm sm (some t) (pre ++ [NtObject.trace t]) objs0 r s1
        (by simp [hsplit]) (hmfp.mono) hrun
    | metadataBlock defs =>
      simp only [objectLoop] at hrun
      refine ih (insertAllDefs mm defs) sm ti (pre ++ [NtObject.metadataBlock defs])
        objs0 r s1 (by simp [hsplit]) ?_ hrun
      intro k d hm
      rcases mem_insertAllDefs hm with h1 | h1
      · exact hmfp.mono k d h1
      · exact ⟨h1.2, defs,
          List.mem_append_right _ (List.mem_singleton_self _), h1.1⟩
    | stackBlock fid stackList =>
      simp only [objectLoop] at hrun
      exact ih mm (insertStacks sm fid stackList) ti
        (pre ++ [NtObject.stackBlock fid stackList]) objs0 r s1
        (by simp [hsplit]) (hmfp.mono) hrun
    | spBlock =>
      simp only [objectLoop] at hrun
      exact ih mm sm ti (pre ++ [NtObject.spBlock]) objs0 r s1
        (by simp [hsplit]) (hmfp.mono) hrun
    | eventBlock blobs =>
      cases blobs with
      | nil =>
        simp only [objectLoop] at hrun
        exact ih mm sm ti (pre ++ [NtObject.eventBlock []]) objs0 r s1
          (by simp [hsplit]) (hmfp.mono) hrun
      | cons blob more =>
        obtain ⟨header, payload⟩ := blob
        simp only [objectLoop] at hrun
        cases hpe : parse_event mm sm header payload with
        | error e => rw [hpe] at hrun; exact absurd hrun (by simp)
        | ok ev0 =>
          rw [hpe] at hrun
          simp only [Except.ok.injEq, Prod.mk.injEq] at hrun
          obtain ⟨hr, hs1⟩ := hrun
          subst hs1
          have hreach : Reached objs0
              (⟨rest, mm, sm, ti, some more⟩ : PState) :=
            ⟨pre ++ [NtObject.eventBlock ((header, payload) :: more)],
              by simp [hsplit], hmfp.mono⟩
          refine ⟨hreach, ?_⟩
          intro ev hev
          rw [← hr] at hev
          injection hev with hev
          subst hev
          unfold parse_event at hpe
          cases hlk : List.lookup header.metadata_id mm with
          | none => rw [hlk] at hpe; exact absurd hpe (by simp)
          | some d =>
            rw [hlk] at hpe
            simp only [Except.ok.injEq] at hpe
            obtain ⟨hid, defs, hblk, hd⟩ := hmfp _ _ (lookup_mem hlk)
            exact ⟨pre ++ [NtObject.eventBlock ((header, payload) :: more)],
              defs, d, by simp [hsplit], List.mem_append_left _ hblk, hd,
              by rw [← hpe], by rw [← hpe], by rw [← hpe], by rw [← hpe],
              by rw [← hpe]⟩
    | unknown name =>
      simp only [objectLoop] at hrun
      exact absurd hrun (by simp)

end ObjectStream

section Claims

/-- C4, counterexample: the unsigned varint decoder does not stop at 10
bytes and does not fail on a longer-than-10-byte varint.  On ten
continuation bytes followed by a terminator it consumes all 11 input bytes
and returns a value (64, the release-build result of the masked shift);
debug builds would abort on the shift overflow, and in neither build is an
I/O-style error returned. -/
theorem usamply_c4_counterexample :
    parse_varint_u64 (List.replicate 10 128 ++ [1]) = some (64, []) ∧
    (List.replicate 10 128 ++ [1]).length = 11 :=
  ⟨rfl, rfl⟩

/-- C4, amended: `parse_varint_u64` imposes no byte cap at all.  It keeps
consuming bytes while their continuation bits are set, so it returns the
propagated I/O error exactly when every input byte up to end of input has
the high bit set — never because a varint exceeds 10 bytes. -/
theorem usamply_c4_no_byte_cap (bs : List Nat) :
    parse_varint_u64 bs = none ↔ ∀ b ∈ bs, b &&& 128 ≠ 0 :=
  varintLoop_none_iff bs 0 0

/-- C4, witness: two lone continuation bytes exhaust the input, and the
decoder reports the I/O failure. -/
theorem usamply_c4_witness : parse_varint_u64 [128, 128] = none :=
  (usamply_c4_no_byte_cap [128, 128]).mpr (by decide)

/-- C9: the signed varint decoders are exactly the two's-complement
reinterpretation of the unsigned decode — `parse_varint_i64` returns the
u64 value reinterpreted (congruent mod 2^64 and in i64 range),
`parse_varint_i32` the u64 value truncated to 32 bits and reinterpreted,
and `parse_varint_u32` the plain 32-bit truncation; no zig-zag decoding is
involved. -/
theorem usamply_c9_signed_reinterpret (bs : List Nat) (v : Nat) (rest : List Nat)
    (h : parse_varint_u64 bs = some (v, rest)) :
    v < 2 ^ 64 ∧
    parse_varint_i64 bs = some (toInt64 v, rest) ∧
    parse_varint_i32 bs = some (toInt32 (v % 2 ^ 32), rest) ∧
    parse_varint_u32 bs = some (v % 2 ^ 32, rest) ∧
    toInt64 v ≡ (v : Int) [ZMOD (2 ^ 64 : Nat)] ∧
    -(2 ^ 63) ≤ toInt64 v ∧ toInt64 v < 2 ^ 63 ∧
    toInt32 (v % 2 ^ 32) ≡ (v : Int) [ZMOD (2 ^ 32 : Nat)] ∧
    -(2 ^ 31) ≤ toInt32 (v % 2 ^ 32) ∧ toInt32 (v % 2 ^ 32) < 2 ^ 31 := by
  have hv : v < 2 ^ 64 := parse_varint_u64_lt h
  refine ⟨hv, ?_, ?_, ?_, ?_, ?_, ?_, ?_, ?_, ?_⟩
  · simp [parse_varint_i64, h]
  · simp [parse_varint_i32, h]
  · simp [parse_varint_u32, h]
  · unfold Int.ModEq toInt64
    split <;> omega
  · unfold toInt64; split <;> omega
  · unfold toInt64; split <;> omega
  · have hmod : (v % 2 ^ 32 : Int) = (v : Int) % 2 ^ 32 := by
      push_cast
      rfl
    unfold Int.ModEq toInt32
    split <;> omega
  · unfold toInt32; split <;> omega
  · unfold toInt32
    split <;> omega

/-- C9, witness: on the single byte 0x01 the unsigned decode is 1 and every
signed variant is the reinterpretation 1 (zig-zag would have produced -1). -/
theorem usamply_c9_witness :
    parse_varint_i64 [1] = some (toInt64 1, []) ∧
    parse_varint_i32 [1] = some (toInt32 1, []) ∧
    parse_varint_u32 [1] = some (1, []) := by
  have h := usamply_c9_signed_reinterpret [1] 1 [] rfl
  exact ⟨h.2.1, h.2.2.1, h.2.2.2.1⟩

/-- C10: advancing the event-blob iterator returns an item only when the
blob's header parses and its declared payload size fits in the remaining
buffer bytes; when the header fails to parse, or the payload overruns the
buffer, the iterator aborts the process (`panicked`) instead of returning
an error value. -/
theorem usamply_c10_blob_iterator_panics :
    (∀ (it : EventBlobIter) (r : (EventBlobHeader × List Nat) × EventBlobIter),
      it.next = POutcome.ok (some r) →
      it.pos < it.blob_size ∧
        ∃ h rest, parse_header it.data it.prev_header it.compressed_headers = some (h, rest) ∧
          h.payload_size ≤ rest.length) ∧
    (∀ it : EventBlobIter, it.pos < it.blob_size →
      parse_header it.data it.prev_header it.compressed_headers = none →
      it.next = POutcome.panicked) ∧
    (∀ (it : EventBlobIter) (h : EventBlobHeader) (rest : List Nat),
      it.pos < it.blob_size →
      parse_header it.data it.prev_header it.compressed_headers = some (h, rest) →
      rest.length < h.payload_size →
      it.next = POutcome.panicked) := by
  refine ⟨?_, ?_, ?_⟩
  · intro it r hr
    unfold EventBlobIter.next at hr
    by_cases hpos : it.blob_size ≤ it.pos
    · rw [if_pos hpos] at hr
      exact absurd hr (by simp)
    · rw [if_neg hpos] at hr
      refine ⟨by omega, ?_⟩
      cases hp : parse_header it.data it.prev_header it.compressed_headers with
      | none => rw [hp] at hr; exact absurd hr (by simp)
      | some hdr =>
        obtain ⟨h0, rest0⟩ := hdr
        rw [hp] at hr
        dsimp only at hr
        by_cases hlen : rest0.length < h0.payload_size
        · rw [if_pos hlen] at hr
          exact absurd hr (by simp)
        · exact ⟨h0, rest0, rfl, by omega⟩
  · intro it hpos hp
    unfold EventBlobIter.next
    rw [if_neg (by omega), hp]
  · intro it h rest hpos hp hlen
    unfold EventBlobIter.next
    rw [if_neg (by omega), hp]
    dsimp only
    rw [if_pos hlen]

/-- A truncated blob: the compressed header promises a 5-byte payload but
the block buffer is exhausted. -/
def c10_trunc_iter : EventBlobIter :=
  { data := [128, 0, 5], pos := 0, blob_size := 3, compressed_headers := true
    prev_header := defaultHeader }

/-- A blob whose header itself is cut off (flag byte demands a metadata-id
varint that is missing). -/
def c10_cut_iter : EventBlobIter :=
  { data := [1], pos := 0, blob_size := 1, compressed_headers := true
    prev_header := defaultHeader }

/-- A well-formed one-blob buffer: header with a 1-byte payload, then that
byte. -/
def c10_good_iter : EventBlobIter :=
  { data := [128, 0, 1, 9], pos := 0, blob_size := 4, compressed_headers := true
    prev_header := defaultHeader }

/-- The header decoded by `c10_trunc_iter` (payload size 5). -/
def c10_header : EventBlobHeader :=
  ⟨0, 0, 0, 0, 0, 0, 0, 0, List.replicate 16 0, List.replicate 16 0, 5, 0, false⟩

/-- C10, witness: the truncated blob and the cut-off header both abort,
while the well-formed blob advances and satisfies the totality
precondition. -/
theorem usamply_c10_witness :
    c10_trunc_iter.next = POutcome.panicked ∧
    c10_cut_iter.next = POutcome.panicked ∧
    (c10_good_iter.pos < c10_good_iter.blob_size ∧
      ∃ h rest, parse_header c10_good_iter.data c10_good_iter.prev_header
          c10_good_iter.compressed_headers = some (h, rest) ∧
        h.payload_size ≤ rest.length) := by
  refine ⟨?_, ?_, ?_⟩
  · exact usamply_c10_blob_iterator_panics.2.2 c10_trunc_iter c10_header []
      (by decide) (by rfl) (by decide)
  · exact usamply_c10_blob_iterator_panics.2.1 c10_cut_iter (by decide) (by rfl)
  · exact usamply_c10_blob_iterator_panics.1 c10_good_iter
      ((⟨0, 0, 0, 0, 0, 0, 0, 0, List.replicate 16 0, List.replicate 16 0, 1, 0, false⟩,
        [9]),
        { data := [], pos := 4, blob_size := 4, compressed_headers := true
          prev_header :=
            ⟨0, 0, 0, 0, 0, 0, 0, 0, List.replicate 16 0, List.replicate 16 0, 1, 0,
              false⟩ }) (by rfl)

/-- An unsorted header exactly as the compressed-header decoder yields it
for the byte sequence `[0x80, 0x00, 0x05]` against a default previous
header. -/
def c5_header : EventBlobHeader :=
  ⟨0, 0, 0, 0, 0, 0, 0, 0, List.replicate 16 0, List.replicate 16 0, 5, 0, false⟩

/-- C5, counterexample: re-encoding a decoder-yielded header whose
`is_sorted` flag is false with the literal all-bits-set flag byte `0xFF`
and decoding against a fresh default `PrevHeader` does not give back the
original header: flag bit 6 carries the `is_sorted` value itself, so the
re-decoded header has `is_sorted = true` (and the corresponding high bit in
`raw_metadata_id`). -/
theorem usamply_c5_counterexample :
    parse_compressed_header [128, 0, 5] defaultHeader = some (c5_header, []) ∧
    parse_compressed_header (encode_compressed_header 255 c5_header) defaultHeader =
      some ({ c5_header with is_sorted := true, raw_metadata_id := 2147483648 }, []) ∧
    ({ c5_header with is_sorted := true, raw_metadata_id := 2147483648 } : EventBlobHeader)
      ≠ c5_header := by
  refine ⟨rfl, ?_, by decide⟩
  have henc : encode_compressed_header 255 c5_header =
      255 :: 0 :: 0 :: 0 :: 0 :: 0 :: 0 :: 0 ::
        (List.replicate 16 0 ++ (List.replicate 16 0 ++ [5])) := by
    simp only [encode_compressed_header, c5_header,
      if_pos (show is_set 255 0 = true from by decide),
      if_pos (show is_set 255 1 = true from by decide),
      if_pos (show is_set 255 2 = true from by decide),
      if_pos (show is_set 255 3 = true from by decide),
      if_pos (show is_set 255 4 = true from by decide),
      if_pos (show is_set 255 5 = true from by decide),
      if_pos (show is_set 255 7 = true from by decide)]
    norm_num
    simp [encode_varint]
  rw [henc]
  rfl

/-- C5, amended: the compressed-header replay property holds once the
re-encoding flag byte carries the header's own `is_sorted` value in bit 6
(all other bits set, every field written explicitly, the timestamp as a
delta from zero and the sequence number as a delta from zero accounting for
the non-metadata increment): decoding against a fresh default `PrevHeader`
then yields the original header, including `is_sorted`, for every header of
the decoder's shape (`good_header`). -/
theorem usamply_c5_header_replay (h : EventBlobHeader) (hg : good_header h) :
    parse_compressed_header
      (encode_compressed_header (191 ||| (if h.is_sorted then 64 else 0)) h)
      defaultHeader = some (h, []) :=
  decode_encode_header hg

/-- A sorted header with every field populated, for the replay witness. -/
def c5_witness_header : EventBlobHeader :=
  ⟨0, 2147483655, 0, 123456789, 55, 2, 9, 987654321, List.replicate 16 1,
    List.replicate 16 2, 1000, 7, true⟩

/-- C5, witness: the replay round trip at a concrete fully-populated sorted
header (its zero sequence number also exercises the wrapping delta). -/
theorem usamply_c5_witness :
    good_header c5_witness_header ∧
    parse_compressed_header
      (encode_compressed_header
        (191 ||| (if c5_witness_header.is_sorted then 64 else 0)) c5_witness_header)
      defaultHeader = some (c5_witness_header, []) :=
  ⟨by decide, usamply_c5_header_replay c5_witness_header (by decide)⟩

/-- A previous header with `is_sorted` set, exactly as the decoder yields it
for the byte sequence `[0x40, 0x00]` against a default previous header. -/
def c6_prev : EventBlobHeader :=
  ⟨0, 2147483648, 0, 0, 0, 0, 0, 0, List.replicate 16 0, List.replicate 16 0, 0, 0, true⟩

/-- The header decoded from `[0x80, 0x00, 0x05]` against `c6_prev`. -/
def c6_second : EventBlobHeader :=
  ⟨0, 0, 0, 0, 0, 0, 0, 0, List.replicate 16 0, List.replicate 16 0, 5, 0, false⟩

/-- C6, counterexample: with only flag bit 7 set, a field listed in the
flag-bit table is not inherited from `PrevHeader`: decoding `[0x80, 0x00,
0x05]` against a previous header whose `is_sorted` is true yields a header
whose `is_sorted` is false (bit 6 of the new flag byte), so more than
payload-size and timestamp differ from the previous header. -/
theorem usamply_c6_counterexample :
    parse_compressed_header [64, 0] defaultHeader = some (c6_prev, []) ∧
    parse_compressed_header [128, 0, 5] c6_prev =
      some (c6_second, []) ∧
    c6_second.is_sorted ≠ c6_prev.is_sorted := by
  exact ⟨rfl, rfl, by decide⟩

/-- C6, amended: the flag-bit semantics of the compressed-header decoder.
Each payload-carrying field (bits 0-5 and 7) is read from the stream exactly
when its bit is set and inherited from `PrevHeader` otherwise; the timestamp
is always read as a signed varint delta added with wrapping; `is_sorted` is
taken from flag bit 6 itself, neither read nor inherited; and the sequence
number is the inherited-or-delta-updated base incremented by one exactly
when the decoded metadata id is non-zero (stated as equality with the
table-driven `parse_compressed_header_spec`).  In particular, when only bit
7 is set, thread-id, capture-thread-id, processor-number, stack-id,
metadata-id and both activity ids are inherited, payload-size and the
timestamp delta are read, `is_sorted` resets to false, and the sequence
number still increments when the inherited metadata id is non-zero. -/
theorem usamply_c6_flag_bit_semantics :
    (∀ (bs : List Nat) (prev : EventBlobHeader),
      parse_compressed_header bs prev = parse_compressed_header_spec bs prev) ∧
    (∀ (prev : EventBlobHeader) (bs bs1 rest : List Nat) (d : Int) (v : Nat),
      parse_varint_i64 bs = some (d, bs1) →
      parse_varint_u32 bs1 = some (v, rest) →
      parse_compressed_header (128 :: bs) prev =
        some ({ size := 0
                raw_metadata_id := prev.metadata_id
                sequence_number := if prev.metadata_id ≠ 0
                  then (prev.sequence_number + 1) % 2 ^ 32 else prev.sequence_number
                thread_id := prev.thread_id
                capture_thread_id := prev.capture_thread_id
                processor_number := prev.processor_number
                stack_id := prev.stack_id
                timestamp := wrapAddSigned64 prev.timestamp d
                activity_id := prev.activity_id
                related_activity_id := prev.related_activity_id
                payload_size := v
                metadata_id := prev.metadata_id
                is_sorted := false }, rest)) := by
  refine ⟨parse_compressed_header_eq_spec, ?_⟩
  intro prev bs bs1 rest d v h1 h2
  unfold parse_compressed_header
  simp only [readU8,
    if_neg (show ¬ is_set 128 0 = true from by decide),
    if_neg (show ¬ is_set 128 1 = true from by decide),
    if_neg (show ¬ is_set 128 2 = true from by decide),
    if_neg (show ¬ is_set 128 3 = true from by decide),
    if_neg (show ¬ is_set 128 4 = true from by decide),
    if_neg (show ¬ is_set 128 5 = true from by decide),
    if_pos (show is_set 128 7 = true from by decide),
    h1, h2]
  simp [show is_set 128 6 = false from by decide, Nat.zero_or]

/-- A fully-populated previous header for the bit-7-only decode witness. -/
def c6_witness_prev : EventBlobHeader :=
  ⟨0, 3, 10, 77, 88, 1, 4, 20, List.replicate 16 9, List.replicate 16 8, 2, 3, false⟩

/-- C6, witness: a bit-7-only decode step against a concrete previous
header inherits every listed field, reads the timestamp delta 1 and the
payload size 7, resets `is_sorted`, and increments the inherited sequence
number because the inherited metadata id 3 is non-zero. -/
theorem usamply_c6_witness :
    parse_compressed_header (128 :: [1, 7]) c6_witness_prev =
      some ({ size := 0
              raw_metadata_id := c6_witness_prev.metadata_id
              sequence_number := if c6_witness_prev.metadata_id ≠ 0
                then (c6_witness_prev.sequence_number + 1) % 2 ^ 32
                else c6_witness_prev.sequence_number
              thread_id := c6_witness_prev.thread_id
              capture_thread_id := c6_witness_prev.capture_thread_id
              processor_number := c6_witness_prev.processor_number
              stack_id := c6_witness_prev.stack_id
              timestamp := wrapAddSigned64 c6_witness_prev.timestamp 1
              activity_id := c6_witness_prev.activity_id
              related_activity_id := c6_witness_prev.related_activity_id
              payload_size := 7
              metadata_id := c6_witness_prev.metadata_id
              is_sorted := false }, []) :=
  usamply_c6_flag_bit_semantics.2 c6_witness_prev [1, 7] [7] [] 1 7 (by decide) (by decide)

/-- The verbose version-1 method payload used by the C2 instances: three
little-endian u64 fields (method id, module id, start address), three u32
fields (size, token, flags), empty namespace, name and signature strings,
and a u16 CLR instance id, all with distinct nonzero bytes. -/
def c2_payload : List Nat :=
  [1, 2, 3, 4, 5, 6, 7, 8,
   2, 3, 4, 5, 6, 7, 8, 9,
   3, 4, 5, 6, 7, 8, 9, 10,
   4, 5, 6, 7,
   5, 6, 7, 8,
   6, 7, 8, 9,
   0, 0,
   0, 0,
   0, 0,
   7, 1]

/-- A rundown event with id 144 carrying `c2_payload`. -/
def c2_event : NettraceEvent :=
  { provider_name := "Microsoft-Windows-DotNETRuntimeRundown"
    event_id := 144
    event_name := none
    event_keywords := 0
    event_version := 1
    event_level := 0
    event_opcode := none
    sequence_number := 0
    thread_id := 0
    capture_thread_id := 0
    processor_number := none
    stack := []
    timestamp := 0
    activity_id := List.replicate 16 0
    related_activity_id := List.replicate 16 0
    payload := c2_payload }

/-- The decoded method fields of `c2_payload`. -/
def c2_method : MethodLoadUnloadEvent :=
  ⟨578437695752307201, 650777868590383874, 723118041428460547,
   117835012, 134678021, 151521030, [], [], [], some 263, none⟩

/-- C2, counterexample: the rundown decoder maps event id 144 to the
`MethodDCEnd` variant of the typed-event union, not to `MethodLoad`; the
metadata does carry `is_rundown = true`. -/
theorem usamply_c2_counterexample :
    decode_coreclr_event c2_event =
      POutcome.ok (some (⟨0, 4294967295, 0, none, true⟩, CoreClrEvent.MethodDCEnd c2_method)) ∧
    CoreClrEvent.isMethodLoad (CoreClrEvent.MethodDCEnd c2_method) = false :=
  ⟨rfl, rfl⟩

/-- C2, amended: for every event from the rundown provider with event id
144 whose payload decodes as a verbose method event, the payload decoder
produces the `MethodDCEnd` variant with `is_rundown = true` in its
metadata, carrying exactly the same decoded method fields as the regular
provider's MethodLoadVerbose event (id 143) decodes from the same payload
and version (that one is the `MethodLoad` variant with
`is_rundown = false`). -/
theorem usamply_c2_rundown_method_dc_end (ev : NettraceEvent)
    (m : MethodLoadUnloadEvent)
    (hprov : ev.provider_name = "Microsoft-Windows-DotNETRuntimeRundown")
    (hid : ev.event_id = 144)
    (hm : decodeMethodLoadUnload ev.event_version true ev.payload = some m) :
    decode_coreclr_event ev =
      POutcome.ok (some (to_event_metadata ev true, CoreClrEvent.MethodDCEnd m)) ∧
    (to_event_metadata ev true).is_rundown = true ∧
    decode_coreclr_event
        { ev with provider_name := "Microsoft-Windows-DotNETRuntime", event_id := 143 } =
      POutcome.ok (some
        (to_event_metadata
          { ev with provider_name := "Microsoft-Windows-DotNETRuntime", event_id := 143 }
          false,
        CoreClrEvent.MethodLoad m)) := by
  refine ⟨?_, rfl, ?_⟩
  · unfold decode_coreclr_event
    rw [hprov]
    rw [if_neg (by decide), if_pos rfl]
    unfold decode_coreclr_rundown_event
    rw [hid]
    dsimp only
    rw [hm]
  · unfold decode_coreclr_event
    rw [if_pos rfl]
    unfold decode_coreclr_regular_event
    dsimp only
    rw [hm]

/-- C2, witness: the amended behavior at the concrete payload — the
rundown event yields `MethodDCEnd` with rundown metadata, and the same
payload as a regular id-143 event yields `MethodLoad` with identical
fields. -/
theorem usamply_c2_witness :
    decode_coreclr_event c2_event =
      POutcome.ok (some (to_event_metadata c2_event true,
        CoreClrEvent.MethodDCEnd c2_method)) ∧
    (to_event_metadata c2_event true).is_rundown = true ∧
    decode_coreclr_event
        { c2_event with provider_name := "Microsoft-Windows-DotNETRuntime", event_id := 143 } =
      POutcome.ok (some
        (to_event_metadata
          { c2_event with provider_name := "Microsoft-Windows-DotNETRuntime", event_id := 143 }
          false,
        CoreClrEvent.MethodLoad c2_method)) :=
  usamply_c2_rundown_method_dc_end c2_event c2_method rfl rfl (by decide)

/-- A GCTriggered event (id 35) whose payload carries the unknown GC-reason
value 100. -/
def c3_event : NettraceEvent :=
  { provider_name := "Microsoft-Windows-DotNETRuntime"
    event_id := 35
    event_name := none
    event_keywords := 0
    event_version := 0
    event_level := 0
    event_opcode := none
    sequence_number := 0
    thread_id := 0
    capture_thread_id := 0
    processor_number := none
    stack := []
    timestamp := 0
    activity_id := List.replicate 16 0
    related_activity_id := List.replicate 16 0
    payload := [100, 0, 0, 0, 0, 0] }

/-- C3, counterexample: in the EventPipe payload decoder an enumeration
value outside the known set does not fall back to the sentinel — the binrw
`repr(u32)` read fails and the branch's `.unwrap()` aborts the process. -/
theorem usamply_c3_counterexample :
    gcReasonFromU32 100 = none ∧
    decode_coreclr_event c3_event = POutcome.panicked :=
  ⟨rfl, rfl⟩

/-- C3, amended: the "substitute the empty/other sentinel and continue"
behavior for unknown enum values holds on the ETW adapter path, whose
`GarbageCollection/Triggered` decode maps any GC-reason u32 outside the
known set to `GcReason::Empty` and still stores/returns events normally; on
the EventPipe payload-decoder path (event id 35) an unknown GC-reason value
makes the binrw decode fail and the `.unwrap()` panic, aborting instead of
substituting. -/
theorem usamply_c3_enum_fallback :
    (∀ (ev : NettraceEvent) (r : Nat) (rest : List Nat),
      ev.provider_name = "Microsoft-Windows-DotNETRuntime" →
      ev.event_id = 35 →
      readLE 4 ev.payload = some (r, rest) →
      gcReasonFromU32 r = none →
      decode_coreclr_event ev = POutcome.panicked) ∧
    (∀ (st : EtwState) (s : TypedEvent) (p : EtwProps),
      s.name = "Microsoft-Windows-DotNETRuntime/GarbageCollection/Triggered" →
      gcReasonFromU32 (p.getNum "Reason") = none →
      etw_event_to_coreclr_event st s p =
        POutcome.ok (List.lookup s.thread_id st,
          (s.thread_id,
            (⟨s.timestamp, s.process_id, s.thread_id, none⟩,
             CoreClrEvent.GcTriggered ⟨GcReason.Empty, 0⟩)) ::
          removeThread st s.thread_id)) := by
  constructor
  · intro ev r rest hprov hid hread hreason
    unfold decode_coreclr_event
    rw [hprov, if_pos rfl]
    unfold decode_coreclr_regular_event
    rw [hid]
    dsimp only
    unfold decodeGcTriggered
    rw [hread]
    dsimp only
    rw [hreason]
  · intro st s p hname hreason
    unfold etw_event_to_coreclr_event
    rw [hname]
    rw [show splitn3 "Microsoft-Windows-DotNETRuntime/GarbageCollection/Triggered" =
      some ("Microsoft-Windows-DotNETRuntime", "GarbageCollection", "Triggered") from rfl]
    dsimp only
    rw [if_pos (Or.inl rfl)]
    rw [show normalize_task_opcode "GarbageCollection" "Triggered" =
      ("GarbageCollection", "Triggered") from rfl]
    dsimp only
    rw [if_neg (by intro hc; exact absurd hc.1 (by decide))]
    have hnew : etw_new_event "GarbageCollection" "Triggered" p =
        some (CoreClrEvent.GcTriggered ⟨GcReason.Empty, 0⟩) := by
      unfold etw_new_event
      rw [if_neg (by decide), if_neg (by decide), if_pos rfl,
        if_neg (by decide), if_pos rfl, hreason]
      rfl
    rw [hnew]

/-- The ETW accessor used by the C3 and C7 witnesses: the GC reason reads
as the unknown value 100; the stack-walk field carries the addresses 10 and
11 and the trailing buffer the address 12. -/
def c3_props : EtwProps :=
  { getNum := fun _ => 100
    tryGetNum := fun _ => none
    getStr := fun _ => []
    getBytes := fun nm => if nm = "Stack"
      then [10, 0, 0, 0, 0, 0, 0, 0, 11, 0, 0, 0, 0, 0, 0, 0] else []
    buffer := [12, 0, 0, 0, 0, 0, 0, 0] }

/-- The ETW row for a `GarbageCollection/Triggered` event on thread 100. -/
def c3_row : TypedEvent :=
  { name := "Microsoft-Windows-DotNETRuntime/GarbageCollection/Triggered"
    timestamp := 5
    process_id := 42
    thread_id := 100 }

/-- C3, witness: the EventPipe path aborts on the unknown reason 100 while
the ETW path substitutes `GcReason.Empty` and stores the event in the
pending slot. -/
theorem usamply_c3_witness :
    decode_coreclr_event c3_event = POutcome.panicked ∧
    etw_event_to_coreclr_event [] c3_row c3_props =
      POutcome.ok (none,
        [(100, (⟨5, 42, 100, none⟩, CoreClrEvent.GcTriggered ⟨GcReason.Empty, 0⟩))]) :=
  ⟨usamply_c3_enum_fallback.1 c3_event 100 [0, 0] rfl rfl rfl rfl,
   usamply_c3_enum_fallback.2 [] c3_row c3_props rfl rfl⟩

/-- C7: the ETW stack-attach side-channel.  For every adapter state: a
recognized non-stackwalk row on thread T stores its event (with no stack)
in T's pending slot and returns T's previously pending event, if any,
exactly as stored (unattached); a `CLRStack/CLRStackWalk` row on thread T
returns T's pending event with the stack-walk addresses attached — the
8-byte little-endian chunks of the fixed `Stack` field followed by those of
the trailing buffer — and clears the slot; and a stack-walk with no pending
event on that thread returns nothing. -/
theorem usamply_c7_stack_attach :
    (∀ (st : EtwState) (s : TypedEvent) (p : EtwProps)
      (provider t0 o0 task opcode : String) (e : CoreClrEvent),
      splitn3 s.name = some (provider, t0, o0) →
      (provider = "Microsoft-Windows-DotNETRuntime" ∨
        provider = "Microsoft-Windows-DotNETRuntimeRundown") →
      normalize_task_opcode t0 o0 = (task, opcode) →
      ¬(task = "CLRStack" ∧ opcode = "CLRStackWalk") →
      etw_new_event task opcode p = some e →
      etw_event_to_coreclr_event st s p =
        POutcome.ok (List.lookup s.thread_id st,
          (s.thread_id,
            (⟨s.timestamp, s.process_id, s.thread_id, none⟩, e)) ::
          removeThread st s.thread_id)) ∧
    (∀ (st : EtwState) (s : TypedEvent) (p : EtwProps)
      (provider t0 o0 : String) (m : EtwEventMetadata) (e : CoreClrEvent),
      splitn3 s.name = some (provider, t0, o0) →
      (provider = "Microsoft-Windows-DotNETRuntime" ∨
        provider = "Microsoft-Windows-DotNETRuntimeRundown") →
      normalize_task_opcode t0 o0 = ("CLRStack", "CLRStackWalk") →
      List.lookup s.thread_id st = some (m, e) →
      etw_event_to_coreclr_event st s p =
        POutcome.ok (some
          (m.with_stack
            ((chunksExact8 (p.getBytes "Stack") ++ chunksExact8 p.buffer).map leVal), e),
          removeThread st s.thread_id)) ∧
    (∀ (st : EtwState) (s : TypedEvent) (p : EtwProps) (provider t0 o0 : String),
      splitn3 s.name = some (provider, t0, o0) →
      (provider = "Microsoft-Windows-DotNETRuntime" ∨
        provider = "Microsoft-Windows-DotNETRuntimeRundown") →
      normalize_task_opcode t0 o0 = ("CLRStack", "CLRStackWalk") →
      List.lookup s.thread_id st = none →
      etw_event_to_coreclr_event st s p =
        POutcome.ok (none, removeThread st s.thread_id)) := by
  refine ⟨?_, ?_, ?_⟩
  · intro st s p provider t0 o0 task opcode e hsplit hprov hnorm hnots hnew
    unfold etw_event_to_coreclr_event
    rw [hsplit]
    dsimp only
    rw [if_pos hprov, hnorm]
    dsimp only
    rw [if_neg hnots, hnew]
  · intro st s p provider t0 o0 m e hsplit hprov hnorm hlk
    unfold etw_event_to_coreclr_event
    rw [hsplit]
    dsimp only
    rw [if_pos hprov, hnorm]
    dsimp only
    rw [if_pos ⟨rfl, rfl⟩, hlk]
  · intro st s p provider t0 o0 hsplit hprov hnorm hlk
    unfold etw_event_to_coreclr_event
    rw [hsplit]
    dsimp only
    rw [if_pos hprov, hnorm]
    dsimp only
    rw [if_pos ⟨rfl, rfl⟩, hlk]

/-- The ETW stack-walk row on thread 100 used by the C7 witness. -/
def c7_walk_row : TypedEvent :=
  { name := "Microsoft-Windows-DotNETRuntime/CLRStack/CLRStackWalk"
    timestamp := 6
    process_id := 42
    thread_id := 100 }

/-- C7, witness: the specification scenario.  A `GarbageCollection/Triggered`
row on thread 100 is stored pending (nothing returned); the following
stack-walk on thread 100 returns it with stack `[10, 11, 12]` (10 and 11
from the fixed `Stack` field, 12 from the trailing buffer); a stack-walk
against an empty state returns nothing. -/
theorem usamply_c7_witness :
    etw_event_to_coreclr_event [] c3_row c3_props =
      POutcome.ok (none,
        [(100, (⟨5, 42, 100, none⟩, CoreClrEvent.GcTriggered ⟨GcReason.Empty, 0⟩))]) ∧
    etw_event_to_coreclr_event
        [(100, (⟨5, 42, 100, none⟩, CoreClrEvent.GcTriggered ⟨GcReason.Empty, 0⟩))]
        c7_walk_row c3_props =
      POutcome.ok (some
        ((⟨5, 42, 100, none⟩ : EtwEventMetadata).with_stack [10, 11, 12],
          CoreClrEvent.GcTriggered ⟨GcReason.Empty, 0⟩), []) ∧
    etw_event_to_coreclr_event [] c7_walk_row c3_props = POutcome.ok (none, []) := by
  refine ⟨?_, ?_, ?_⟩
  · exact usamply_c7_stack_attach.1 [] c3_row c3_props
      "Microsoft-Windows-DotNETRuntime" "GarbageCollection" "Triggered"
      "GarbageCollection" "Triggered" (CoreClrEvent.GcTriggered ⟨GcReason.Empty, 0⟩)
      rfl (Or.inl rfl) rfl (by intro hc; exact absurd hc.1 (by decide)) rfl
  · exact usamply_c7_stack_attach.2.1
      [(100, (⟨5, 42, 100, none⟩, CoreClrEvent.GcTriggered ⟨GcReason.Empty, 0⟩))]
      c7_walk_row c3_props "Microsoft-Windows-DotNETRuntime" "CLRStack" "CLRStackWalk"
      ⟨5, 42, 100, none⟩ (CoreClrEvent.GcTriggered ⟨GcReason.Empty, 0⟩)
      rfl (Or.inl rfl) rfl rfl
  · exact usamply_c7_stack_attach.2.2 [] c7_walk_row c3_props
      "Microsoft-Windows-DotNETRuntime" "CLRStack" "CLRStackWalk"
      rfl (Or.inl rfl) rfl rfl

/-- A concrete trace object for the C1 instance. -/
def c1_trace : NettraceTraceObject :=
  ⟨⟨2024, 1, 1, 1, 0, 0, 0, 0⟩, 0, 10000000, 8, 4242, 8, 0⟩

/-- C1: code bug.  A well-formed stream's first object carries the type
name `"Trace"` — the name `next_event`'s dispatcher recognizes — yet
`trace_info()` called before any `next_event()` demands the name
`"TraceObject"` and therefore returns the `Expected TraceObject` error on
every such stream, contradicting the claim that it parses the first object
and returns the trace info.  Once `next_event` has consumed the Trace
object the cached value is served as the claim describes. -/
theorem usamply_c1_trace_info_code_bug :
    typeName (NtObject.trace c1_trace) = "Trace" ∧
    trace_info (open_state [NtObject.trace c1_trace]) = .error "Expected TraceObject" ∧
    next_event (open_state [NtObject.trace c1_trace]) =
      .ok (none, ⟨[], [], [], some c1_trace, none⟩) ∧
    trace_info (⟨[], [], [], some c1_trace, none⟩ : PState) =
      .ok (c1_trace, ⟨[], [], [], some c1_trace, none⟩) :=
  ⟨rfl, rfl, rfl, rfl⟩

/-- C8: for every event blob whose metadata id has no registry entry,
`next_event` returns the fatal error and yields no event; and every event
the parser does produce from a reachable state is built from a schema
definition registered by an earlier `MetadataBlock` of the same stream (the
reached-state invariant is preserved). -/
theorem usamply_c8_metadata_registry :
    (∀ (s : PState) (header : EventBlobHeader) (payload : List Nat)
      (more : List (EventBlobHeader × List Nat)),
      s.cur_blobs = some ((header, payload) :: more) →
      List.lookup header.metadata_id s.metadata_map = none →
      next_event s = .error "Metadata definition not found") ∧
    (∀ (objs0 : List NtObject) (s : PState) (ev : NettraceEvent) (s1 : PState),
      Reached objs0 s → next_event s = .ok (some ev, s1) →
      Reached objs0 s1 ∧ EventFromEarlierMetadata objs0 s1 ev) := by
  constructor
  · intro s header payload more hcur hlk
    unfold next_event
    rw [hcur]
    dsimp only
    unfold parse_event
    rw [hlk]
  · intro objs0 s ev s1 hreach hrun
    obtain ⟨pre, hsplit, hmfp⟩ := hreach
    unfold next_event at hrun
    cases hcur : s.cur_blobs with
    | none =>
      rw [hcur] at hrun
      have h := objectLoop_sound s.objects s.metadata_map s.stack_map s.trace_info
        pre objs0 (some ev) s1 hsplit hmfp hrun
      exact ⟨h.1, h.2 ev rfl⟩
    | some blobs =>
      cases blobs with
      | nil =>
        rw [hcur] at hrun
        have h := objectLoop_sound s.objects s.metadata_map s.stack_map s.trace_info
          pre objs0 (some ev) s1 hsplit hmfp hrun
        exact ⟨h.1, h.2 ev rfl⟩
      | cons blob more =>
        obtain ⟨header, payload⟩ := blob
        rw [hcur] at hrun
        dsimp only at hrun
        cases hpe : parse_event s.metadata_map s.stack_map header payload with
        | error e => rw [hpe] at hrun; exact absurd hrun (by simp)
        | ok ev0 =>
          rw [hpe] at hrun
          simp only [Except.ok.injEq, Prod.mk.injEq, Option.some.injEq] at hrun
          obtain ⟨hev, hs1⟩ := hrun
          subst hev
          have hobj : s1.objects = s.objects := by rw [← hs1]
          have hmm : s1.metadata_map = s.metadata_map := by rw [← hs1]
          have hreach1 : Reached objs0 s1 :=
            ⟨pre, by rw [hobj]; exact hsplit, by rw [hmm]; exact hmfp⟩
          refine ⟨hreach1, ?_⟩
          unfold parse_event at hpe
          cases hlk : List.lookup header.metadata_id s.metadata_map with
          | none => rw [hlk] at hpe; exact absurd hpe (by simp)
          | some d =>
            rw [hlk] at hpe
            simp only [Except.ok.injEq] at hpe
            obtain ⟨_, defs, hblk, hd⟩ := hmfp _ _ (lookup_mem hlk)
            exact ⟨pre, defs, d, by rw [hobj]; exact hsplit, hblk, hd,
              by rw [← hpe], by rw [← hpe], by rw [← hpe], by rw [← hpe],
              by rw [← hpe]⟩

/-- The blob header with metadata id 7 used by the C8 witness. -/
def c8_header : EventBlobHeader :=
  ⟨0, 7, 0, 0, 0, 0, 0, 0, List.replicate 16 0, List.replicate 16 0, 0, 7, false⟩

/-- A state whose active iterator holds a blob with the unregistered
metadata id 7. -/
def c8_bad_state : PState :=
  ⟨[], [], [], none, some [(c8_header, [])]⟩

/-- The schema definition registered by the C8 witness stream. -/
def c8_def : MetadataDefinition :=
  ⟨7, "P", 10, "", 0, 1, 4, none⟩

/-- The C8 witness stream: one MetadataBlock defining id 7, then one
EventBlock whose sole blob references id 7. -/
def c8_objs : List NtObject :=
  [NtObject.metadataBlock [c8_def], NtObject.eventBlock [(c8_header, [9])]]

/-- The event the C8 witness stream produces. -/
def c8_event_out : NettraceEvent :=
  { provider_name := "P"
    event_id := 10
    event_name := none
    event_keywords := 0
    event_version := 1
    event_level := 4
    event_opcode := none
    sequence_number := 0
    thread_id := 0
    capture_thread_id := 0
    processor_number := some 0
    stack := []
    timestamp := 0
    activity_id := List.replicate 16 0
    related_activity_id := List.replicate 16 0
    payload := [9] }

/-- C8, witness: an unregistered metadata id is the fatal error, and the
event produced by a concrete register-then-reference stream comes with the
earlier-MetadataBlock provenance. -/
theorem usamply_c8_witness :
    next_event c8_bad_state = .error "Metadata definition not found" ∧
    (Reached c8_objs (⟨[], [(7, c8_def)], [], none, some []⟩ : PState) ∧
      EventFromEarlierMetadata c8_objs (⟨[], [(7, c8_def)], [], none, some []⟩ : PState)
        c8_event_out) := by
  constructor
  · exact usamply_c8_metadata_registry.1 c8_bad_state c8_header [] [] rfl rfl
  · exact usamply_c8_metadata_registry.2 c8_objs (open_state c8_objs) c8_event_out
      (⟨[], [(7, c8_def)], [], none, some []⟩ : PState)
      ⟨[], rfl, fun k d h => absurd h (List.not_mem_nil _)⟩ rfl

end Claims

end Usamply
